import Mathlib

/-!
# setproxy: a shallow embedding of `src/setproxy.c`

The C program is embedded function by function.  Global variables and the two
output streams live in `State`; everything the program learns from its
surroundings (terminal or not, `HOME`, the file system, the resolver and the
socket layer) lives in `Env`.  A function of the program becomes a function
from `State` to a return value and a new `State`.

Conventions.

* A C string is the list of its bytes before the terminating NUL (`CStr`).
  A byte is shown as a `Char`.
* Heap allocation (`malloc`, `strdup`) is taken to succeed.
* The network answers of one run are a function of host and port (`Env`).
* `State.probes` and `State.tcp` record the calls of
  `check_proxy_connectivity` and `check_tcp_connectivity`; they are ghost
  fields used to state which candidates were probed.
-/

namespace Setproxy

/-! ## Strings and the C library -/

/-- C string: the bytes before the terminating NUL. -/
abbrev CStr := List Char

/-- The NUL byte. -/
def NUL : Char := Char.ofNat 0

/-- The C string that starts at the beginning of a byte buffer. -/
def cstr (buf : List Char) : CStr := buf.takeWhile (fun c => c ≠ NUL)

/-- Result `strncmp(s, t, n) == 0`: the strings agree on their first `n` bytes. -/
def strncmp_eq (s t : CStr) (n : Nat) : Bool := s.take n == t.take n

/-- Pointer returned by `strchr(s, c)` for `c` other than NUL: the suffix of `s`
that starts at the first `c`, `none` for NULL. -/
def strchr : CStr → Char → Option CStr
  | [], _ => none
  | x :: xs, c => if x = c then some (x :: xs) else strchr xs c

/-- Bytes stored by `fgets` when at most `n` bytes may be stored: reading stops
after a newline, at end of file, or when `n` bytes are stored.  Returns the
bytes stored and the unread remainder of the stream. -/
def fgets_scan : Nat → List Char → List Char × List Char
  | 0, s => ([], s)
  | _ + 1, [] => ([], [])
  | n + 1, c :: s =>
    if c = '\n' then ([c], s)
    else ((c :: (fgets_scan n s).1), (fgets_scan n s).2)

/-- Call `fgets(buf, size, stream)`: `none` (NULL) at end of file, else the
bytes stored in `buf` before the terminating NUL and the rest of the stream. -/
def fgets (size : Nat) (stream : List Char) : Option (List Char × List Char) :=
  if stream = [] then none else some (fgets_scan (size - 1) stream)

/-- One call of `strtok` on the text `s` that is still to be scanned: leading
delimiters are skipped; `none` (NULL) when nothing is left; else the token and
the text saved for the next call (what follows the delimiter that ended the
token). -/
def strtok (s : CStr) (delim : List Char) : Option (CStr × CStr) :=
  let s1 := s.dropWhile (fun c => delim.contains c)
  if s1 = [] then none
  else some (s1.takeWhile (fun c => !delim.contains c),
             (s1.dropWhile (fun c => !delim.contains c)).drop 1)

/-- Predicate `isspace` of the C locale. -/
def isspace (c : Char) : Bool :=
  c = ' ' || c = '\t' || c = '\n' || c = Char.ofNat 11 || c = Char.ofNat 12 || c = '\r'

/-- Predicate `isdigit`. -/
def isdigit (c : Char) : Bool := '0'.toNat ≤ c.toNat && c.toNat ≤ '9'.toNat

/-- Value of a run of decimal digits. -/
def digits_value (ds : List Char) : Nat :=
  ds.foldl (fun acc d => 10 * acc + (d.toNat - '0'.toNat)) 0

/-- Largest `long` (LP64). -/
def LONG_MAX : Int := 2 ^ 63 - 1

/-- Smallest `long` (LP64). -/
def LONG_MIN : Int := -(2 ^ 63)

/-- Call `strtol(s, &endptr, 10)`: white space is skipped, one sign is
accepted, then the longest run of digits is converted (clamped to the range of
`long`).  Without a digit nothing is converted and `endptr` is `s`.  Returns
the value and the text at `endptr`. -/
def strtol (s : CStr) : Int × CStr :=
  let s1 := s.dropWhile isspace
  let neg := s1.head? = some '-'
  let s2 := if s1.head? = some '-' ∨ s1.head? = some '+' then s1.drop 1 else s1
  let ds := s2.takeWhile isdigit
  if ds = [] then (0, s)
  else
    let v : Int := digits_value ds
    ((if neg then max (-v) LONG_MIN else min v LONG_MAX), s2.dropWhile isdigit)

/-- Function `toupper` of the C locale. -/
def toupper (c : Char) : Char := c.toUpper

/-- Return of one `getopt` call. -/
inductive GetoptRet where
  /-- An option character was returned (`'?'` for an unrecognised one). -/
  | opt (c : Char)
  /-- The scan is over (`-1`); `operands` is `argv[optind .. argc-1]`. -/
  | done (operands : List CStr)
  deriving DecidableEq, Repr

/-- An `argv` element that is not an option element: it does not start with
`-`, or it is exactly `-`. -/
def NONOPTION_P (a : CStr) : Bool :=
  match a with
  | '-' :: _ :: _ => false
  | _ => true

/-- First call of `getopt(argc, argv, optstring)` on the elements after
`argv[0]`, for an `optstring` without `:`.  `posix` is true when the scan
stops at the first non-option (POSIX, or glibc with `POSIXLY_CORRECT`), false
when non-options are passed over and moved behind the options (glibc's
default).  `skipped` holds the non-options passed over so far, last first. -/
def getopt_scan (posix : Bool) (optstring : List Char) :
    List CStr → List CStr → GetoptRet
  | [], skipped => GetoptRet.done skipped.reverse
  | a :: rest, skipped =>
    if a = "--".toList then GetoptRet.done (skipped.reverse ++ rest)
    else if NONOPTION_P a then
      if posix then GetoptRet.done (skipped.reverse ++ a :: rest)
      else getopt_scan posix optstring rest (a :: skipped)
    else
      match a.drop 1 with
      | c :: _ =>
        if optstring.contains c && c != ':' && c != ';' then GetoptRet.opt c
        else GetoptRet.opt '?'
      | [] => GetoptRet.done (skipped.reverse ++ a :: rest)

/-- First call of `getopt(argc, argv, optstring)`. -/
def getopt (posix : Bool) (argv : List CStr) (optstring : List Char) : GetoptRet :=
  getopt_scan posix optstring (argv.drop 1) []

/-! ## Surroundings and program state -/

/-- Constant `INADDR_NONE`. -/
def INADDR_NONE : Nat := 0xFFFFFFFF

/-- What one run of the program sees of its surroundings. -/
structure Env where
  /-- Value of `isatty(fileno(stdout))`. -/
  isatty_stdout : Bool
  /-- Value of `getenv("HOME")`. -/
  HOME : Option CStr
  /-- Content of the file that `fopen(path, "r")` opens, `none` when it fails. -/
  fopen : CStr → Option (List Char)
  /-- Whether `getopt` stops at the first non-option. -/
  posixly_correct : Bool
  /-- Whether `socket` succeeds. -/
  socket_ok : Bool
  /-- Whether setting the receive timeout succeeds. -/
  rcvtimeo_ok : Bool
  /-- Whether setting the send timeout succeeds. -/
  sndtimeo_ok : Bool
  /-- Function `inet_addr`. -/
  inet_addr : CStr → Nat
  /-- First address found by `gethostbyname`, `none` for NULL. -/
  gethostbyname : CStr → Option Nat
  /-- Whether `connect` to an address and port succeeds. -/
  connect_ok : Nat → Nat → Bool

/-- Global variables, output streams, and the record of probes. -/
structure State where
  /-- Entries `0 .. _default_proxy_count - 1` of `_default_proxy`. -/
  _default_proxy : List CStr
  /-- Global `no_proxy`, `none` for NULL. -/
  no_proxy : Option CStr
  /-- Bytes written to standard output. -/
  stdout : List Char
  /-- Bytes written to standard error by the program itself. -/
  stderr : List Char
  /-- Arguments of the calls of `check_proxy_connectivity`, in order. -/
  probes : List CStr
  /-- Arguments of the calls of `check_tcp_connectivity`, in order. -/
  tcp : List (CStr × Nat)
  deriving DecidableEq, Repr

/-- Variable `_default_proxy_count`. -/
def State._default_proxy_count (st : State) : Nat := st._default_proxy.length

/-- State at program start. -/
def State.initial : State :=
  { _default_proxy := [], no_proxy := none, stdout := [], stderr := [],
    probes := [], tcp := [] }

/-- Write to standard output. -/
def State.print (st : State) (s : List Char) : State :=
  { st with stdout := st.stdout ++ s }

/-- Write to standard error. -/
def State.eprint (st : State) (s : List Char) : State :=
  { st with stderr := st.stderr ++ s }

/-- Text printed for a `%s` argument (glibc prints `(null)` for NULL). -/
def fmt_s : Option CStr → List Char
  | some s => s
  | none => "(null)".toList

/-! ## Constants of the program -/

def default_config_file : CStr := "/etc/setproxy/proxy.conf".toList
def user_config_file : CStr := "~/.config/setproxy/proxy.conf".toList
def _env_var_proxy : List CStr := ["all".toList, "http".toList, "https".toList]
def default_no_proxy : CStr := []
def error_message : CStr :=
  "error: setting proxy server is disabled by system administrator".toList
def program : CStr := "setproxy".toList
def program_version : CStr := "0.1.0".toList

/-! ## The program -/

/-- Function `expand_tilde` (lines 40-78); the result is never NULL because
allocation is taken to succeed. -/
def expand_tilde (home : Option CStr) (path : CStr) : Option CStr :=
  if path.head? ≠ some '~' then some path
  else
    match home with
    | none => some path
    | some home =>
      let rest := path.drop 1
      if rest = [] then some home
      else
        let rest := if rest.head? = some '/' then rest.drop 1 else rest
        some (home ++ "/".toList ++ rest)

/-- Quote extraction used by both branches of `read_config_file` (lines
115-120 and 131-136): `value = strchr(s, '"')`, `value++`,
`end = strchr(value, '"')`, `*end = '\0'`; the result is the string at
`value`, `none` when a quote is missing. -/
def quoted (s : CStr) : Option CStr :=
  match strchr s '"' with
  | none => none
  | some p =>
    let value := p.drop 1
    match strchr value '"' with
    | none => none
    | some e => some (value.take (value.length - e.length))

/-- Body of the `while (fgets(...))` loop of `read_config_file` (lines
102-145) for the bytes `buf` that `fgets` stored. -/
def read_config_line (buf : List Char) (st : State) : State :=
  let line := cstr buf
  if line.head? = some '#' ∨ line.head? = some '\n' ∨ line = [] then st
  else
    let line := if line.getLast? = some '\n' then line.dropLast else line
    if strncmp_eq line "proxy=".toList 6 then
      match quoted (line.drop 6) with
      | none => st
      | some value =>
        if st._default_proxy_count < 10 then
          { st with _default_proxy := st._default_proxy ++ [value] }
        else st
    else if strncmp_eq line "no_proxy=".toList 9 then
      match quoted (line.drop 9) with
      | none => st
      | some value => { st with no_proxy := some value }
    else st

/-- Loop `while (fgets(line, sizeof(line), file))` of `read_config_file`
(line 101); `fuel` bounds the number of `fgets` calls. -/
def read_config_loop : Nat → List Char → State → State
  | 0, _, st => st
  | fuel + 1, stream, st =>
    match fgets 1024 stream with
    | none => st
    | some (buf, rest) => read_config_loop fuel rest (read_config_line buf st)

/-- The loop of `read_config_file` run on a whole stream.  Every `fgets` call
that does not report end of file consumes a byte, so as many calls as the
stream has bytes reach the end of file (`read_config_loop_fuel`). -/
def read_config_stream (stream : List Char) (st : State) : State :=
  read_config_loop stream.length stream st

/-- Function `read_config_file` (lines 83-149). -/
def read_config_file (env : Env) (config_path : CStr) (st : State) : State :=
  match expand_tilde env.HOME config_path with
  | none => st.eprint ("error: Failed to expand path: ".toList ++ config_path ++ "\n".toList)
  | some expanded_path =>
    match env.fopen expanded_path with
    | none => st
    | some file => read_config_stream file st

/-- Function `init_config` (lines 154-163). -/
def init_config (env : Env) (st : State) : State :=
  let st := { st with no_proxy := some default_no_proxy }
  let st := read_config_file env default_config_file st
  read_config_file env user_config_file st

/-- Function `strtoupper` (lines 168-173). -/
def strtoupper (s : CStr) : CStr := s.map toupper

/-- Function `version` (lines 178-182). -/
def version (st : State) : Int × State :=
  (0, st.print (program ++ ", version ".toList ++ program_version ++ "\n".toList))

/-- Function `help` (lines 187-191). -/
def help (st : State) : Int × State :=
  (0, st.print (program ++ ", version ".toList ++ program_version
    ++ "\n\nusage: ./".toList ++ program
    ++ " [--unset|-u] [--version|-v] [--help|-h] [proxy1] [proxy2] [proxy3]\n\n".toList))

/-- Function `check_tcp_connectivity` (lines 202-253). -/
def check_tcp_connectivity (env : Env) (host : CStr) (port : Nat) (st : State) :
    Int × State :=
  let st := { st with tcp := st.tcp ++ [(host, port)] }
  if !env.socket_ok then (-1, st.eprint "error: Failed to create socket\n".toList)
  else
    let st := if env.rcvtimeo_ok then st
      else st.eprint "warning: Failed to set receive timeout\n".toList
    let st := if env.sndtimeo_ok then st
      else st.eprint "warning: Failed to set send timeout\n".toList
    let addr := env.inet_addr host
    if addr = INADDR_NONE then
      match env.gethostbyname host with
      | none =>
        (-1, st.eprint ("error: Could not resolve hostname: ".toList ++ host ++ "\n".toList))
      | some a => ((if env.connect_ok a port then 0 else -1), st)
    else ((if env.connect_ok addr port then 0 else -1), st)

/-- Function `check_proxy_connectivity` (lines 262-303). -/
def check_proxy_connectivity (env : Env) (proxy_server : CStr) (st : State) :
    Int × State :=
  let st := { st with probes := st.probes ++ [proxy_server] }
  if proxy_server = [] then
    (-1, st.eprint "error: check_proxy_connectivity: empty proxy server\n".toList)
  else
    match strtok proxy_server ":".toList with
    | none => (-1, st.eprint "error: check_proxy_connectivity: invalid host\n".toList)
    | some (host, saved) =>
      if host = [] then
        (-1, st.eprint "error: check_proxy_connectivity: invalid host\n".toList)
      else
        match strtok saved ":".toList with
        | none => (-1, st.eprint "error: check_proxy_connectivity: invalid port\n".toList)
        | some (port_str, _) =>
          if port_str = [] then
            (-1, st.eprint "error: check_proxy_connectivity: invalid port\n".toList)
          else
            let port := (strtol port_str).1
            let endptr := (strtol port_str).2
            if endptr ≠ [] ∨ port ≤ 0 ∨ port > 65535 then
              (-1, st.eprint "error: check_proxy_connectivity: invalid port number\n".toList)
            else check_tcp_connectivity env host port.toNat st

/-- Function `unset_proxy` (lines 308-329). -/
def unset_proxy (env : Env) (st : State) : Int × State :=
  if env.isatty_stdout then (1, st.eprint (error_message ++ "\n".toList))
  else
    let st := _env_var_proxy.foldl
      (fun st var => st.print ("unset ".toList ++ var ++ "_proxy\n".toList)) st
    let st := st.print "unset no_proxy\n".toList
    let st := _env_var_proxy.foldl
      (fun st var => st.print ("unset ".toList ++ strtoupper var ++ "_PROXY\n".toList)) st
    let st := st.print "unset NO_PROXY\n".toList
    (0, st)

/-- Function `set_proxy` (lines 338-356). -/
def set_proxy (env : Env) (proxy_server : CStr) (st : State) : Int × State :=
  let r := check_proxy_connectivity env proxy_server st
  if r.1 = 0 then
    let st := r.2
    let st := _env_var_proxy.foldl
      (fun st var => st.print ("export ".toList ++ var ++ "_proxy=\"".toList
        ++ proxy_server ++ "\"\n".toList)) st
    let st := st.print ("export no_proxy=\"".toList ++ fmt_s st.no_proxy ++ "\"\n".toList)
    let st := _env_var_proxy.foldl
      (fun st var => st.print ("export ".toList ++ strtoupper var ++ "_PROXY=\"".toList
        ++ proxy_server ++ "\"\n".toList)) st
    let st := st.print ("export NO_PROXY=\"".toList ++ fmt_s st.no_proxy ++ "\"\n".toList)
    (0, st)
  else (-1, r.2)

/-- Function `cleanup` (lines 361-375): heap memory is released and `no_proxy`
is reset to NULL.  The slots of `_default_proxy` from index 3 on are released
too; `_default_proxy_count` is left as it is and nothing reads the array
afterwards, so the model keeps the list. -/
def cleanup (st : State) : State := { st with no_proxy := none }

/-- The two candidate loops of `main` (lines 407-413 and 414-420) share this
shape: call `set_proxy` on each candidate in turn and stop at the first call
that returns 0.  The flag tells whether a call returned 0. -/
def try_each (env : Env) : List CStr → State → Bool × State
  | [], st => (false, st)
  | try_proxy :: rest, st =>
    let r := set_proxy env try_proxy st
    if r.1 = 0 then (true, r.2) else try_each env rest r.2

/-- Function `main` (lines 380-425): exit code and final state.  Every arm of
the `switch` returns, so `getopt` is called once. -/
def main (env : Env) (argv : List CStr) : Int × State :=
  let st := init_config env State.initial
  match getopt env.posixly_correct argv "uvh".toList with
  | GetoptRet.opt c =>
    if c = 'u' then unset_proxy env st
    else if c = 'v' then version st
    else if c = 'h' then help st
    else
      let r := help (cleanup st)
      ((if r.1 = 0 then 1 else 0), r.2)
  | GetoptRet.done operands =>
    if env.isatty_stdout then
      (1, cleanup (st.eprint (error_message ++ "\n".toList)))
    else
      let r := try_each env operands st
      if r.1 then (0, cleanup r.2)
      else
        let r := try_each env r.2._default_proxy r.2
        if r.1 then (0, cleanup r.2)
        else (0, cleanup r.2)


/-! ## Specification-level definitions -/

/-- Whether the prober answers ok (0) for a candidate.  The answer does not
depend on the program state (`check_proxy_connectivity_ret`). -/
def probe_ok (env : Env) (e : CStr) : Bool :=
  decide ((check_proxy_connectivity env e State.initial).1 = 0)

/-- One line `export NAME="VALUE"` of the set block. -/
def export_line (name value : CStr) : List Char :=
  "export ".toList ++ name ++ "=\"".toList ++ value ++ "\"\n".toList

/-- The set block of section 4.4 of the specification for endpoint `e` and
no_proxy value `n`. -/
def set_block (e n : CStr) : List Char :=
  export_line "all_proxy".toList e ++ export_line "http_proxy".toList e
    ++ export_line "https_proxy".toList e ++ export_line "no_proxy".toList n
    ++ export_line "ALL_PROXY".toList e ++ export_line "HTTP_PROXY".toList e
    ++ export_line "HTTPS_PROXY".toList e ++ export_line "NO_PROXY".toList n

/-- The unset block of section 4.4 of the specification. -/
def unset_block : List Char :=
  ("unset all_proxy\nunset http_proxy\nunset https_proxy\nunset no_proxy\n"
    ++ "unset ALL_PROXY\nunset HTTP_PROXY\nunset HTTPS_PROXY\nunset NO_PROXY\n").toList

/-- Sample surroundings: no configuration file, `HOME` set, every host
resolves, and `connect` succeeds exactly on port 3128. -/
def sample_env (tty : Bool) : Env where
  isatty_stdout := tty
  HOME := some "/home/u".toList
  fopen := fun _ => none
  posixly_correct := false
  socket_ok := true
  rcvtimeo_ok := true
  sndtimeo_ok := true
  inet_addr := fun _ => 1
  gethostbyname := fun _ => none
  connect_ok := fun _ port => port == 3128

/-- Endpoint validity in the words of section 4.3, step 1, of the
specification: split at the first `:`; the host is non-empty, the port is
present, non-empty, made of decimal digits only, and its value is in
[1, 65535]. -/
def spec_endpoint_ok (e : CStr) : Bool :=
  match e.dropWhile (fun c => c != ':') with
  | [] => false
  | _ :: port =>
    !(e.takeWhile (fun c => c != ':')).isEmpty && !port.isEmpty && port.all isdigit
      && decide (1 ≤ digits_value port) && decide (digits_value port ≤ 65535)

/-- The text strictly between the first and the second `"` of a line, `none`
when the line has fewer than two `"` (section 3 of the specification). -/
def between_quotes (l : List Char) : Option CStr :=
  match l.dropWhile (fun c => c != '"') with
  | [] => none
  | _ :: t => if '"' ∈ t then some (t.takeWhile (fun c => c != '"')) else none

/-- Value of a well-formed `proxy="VALUE"` line, `none` for any other line. -/
def spec_proxy_value (l : List Char) : Option CStr :=
  if l.take 6 = "proxy=".toList then between_quotes l else none

/-- Value of a well-formed `no_proxy="VALUE"` line, `none` for any other line. -/
def spec_no_proxy_value (l : List Char) : Option CStr :=
  if l.take 9 = "no_proxy=".toList then between_quotes l else none

/-- Effect of one line of a configuration file in the words of section 4.2 of
the specification: a well-formed `proxy=` line appends its value while the
list has fewer than 10 entries, a well-formed `no_proxy=` line replaces the
no_proxy value, any other line has no effect. -/
def line_effect (l : List Char) (st : State) : State :=
  match spec_proxy_value l with
  | some v =>
    if st._default_proxy.length < 10 then
      { st with _default_proxy := st._default_proxy ++ [v] }
    else st
  | none =>
    match spec_no_proxy_value l with
    | some v => { st with no_proxy := some v }
    | none => st

/-- A line of text that fits the read buffer with its newline: fewer than 1023
bytes, none of them a newline or NUL. -/
def short_text_line (l : List Char) : Prop :=
  l.length < 1023 ∧ '\n' ∉ l ∧ NUL ∉ l

instance (l : List Char) : Decidable (short_text_line l) := by
  unfold short_text_line
  exact inferInstance

/-- Physical lines of a file, without their newlines (a file that ends with a
newline has an empty last line). -/
def file_lines : List Char → List (List Char)
  | [] => [[]]
  | c :: s =>
    if c = '\n' then [] :: file_lines s
    else
      match file_lines s with
      | [] => [[c]]
      | l :: ls => (c :: l) :: ls

/-- A text file all of whose lines fit the read buffer. -/
def short_text_file (s : List Char) : Prop := ∀ l ∈ file_lines s, short_text_line l

instance (s : List Char) : Decidable (short_text_file s) := by
  unfold short_text_file
  exact inferInstance

/-- Content of the system configuration file; a file that cannot be opened
counts as empty. -/
def system_file (env : Env) : List Char := (env.fopen default_config_file).getD []

/-- Content of the user configuration file (`~` expanded by `expand_tilde`); a
file that cannot be opened counts as empty. -/
def user_file (env : Env) : List Char :=
  match expand_tilde env.HOME user_config_file with
  | some p => (env.fopen p).getD []
  | none => []

/-- The no_proxy value in the words of the specification: the value of the
last well-formed `no_proxy=` line of the user file if it has one, else of the
last such line of the system file if it has one, else the empty string. -/
def spec_no_proxy (sys user : List Char) : CStr :=
  match ((file_lines user).filterMap spec_no_proxy_value).getLast? with
  | some v => v
  | none =>
    match ((file_lines sys).filterMap spec_no_proxy_value).getLast? with
    | some v => v
    | none => []

/-- The well-formed proxy values of the two files in read order: system file
first, then user file, each from top to bottom. -/
def spec_proxy_values (sys user : List Char) : List CStr :=
  (file_lines sys ++ file_lines user).filterMap spec_proxy_value

/-- Filler of 1022 bytes. -/
def filler : List Char := List.replicate 1022 'x'

/-- A comment line of 1023 bytes and more: `#`, 1022 filler bytes, then `body`,
then a newline. -/
def long_comment (body : List Char) : List Char :=
  '#' :: filler ++ body ++ ['\n']

/-- Surroundings in which only the system configuration file exists, with the
given content. -/
def env_with_system_file (content : List Char) : Env where
  isatty_stdout := false
  HOME := some "/home/u".toList
  fopen := fun p => if p = default_config_file then some content else none
  posixly_correct := false
  socket_ok := true
  rcvtimeo_ok := true
  sndtimeo_ok := true
  inet_addr := fun _ => 1
  gethostbyname := fun _ => none
  connect_ok := fun _ _ => false

/-- A system configuration file with eleven `proxy=` lines followed by a
`no_proxy=` line. -/
def eleven_proxies : List Char :=
  ("proxy=\"p1:1\"\nproxy=\"p2:1\"\nproxy=\"p3:1\"\nproxy=\"p4:1\"\nproxy=\"p5:1\"\n"
    ++ "proxy=\"p6:1\"\nproxy=\"p7:1\"\nproxy=\"p8:1\"\nproxy=\"p9:1\"\nproxy=\"p10:1\"\n"
    ++ "proxy=\"p11:1\"\nno_proxy=\"x\"\n").toList

/-- The version line of section 6 of the specification, for version 0.1.0. -/
def version_line : List Char := "setproxy, version 0.1.0\n".toList

/-- The usage text that `-h` prints. -/
def usage_text : List Char :=
  ("setproxy, version 0.1.0\n\nusage: ./setproxy [--unset|-u] [--version|-v] [--help|-h]"
    ++ " [proxy1] [proxy2] [proxy3]\n\n").toList

/-- Surroundings in which both configuration files exist with the given
contents; `HOME` is `/home/u` and every connect is refused. -/
def env_with_files (sys user : List Char) : Env where
  isatty_stdout := false
  HOME := some "/home/u".toList
  fopen := fun p =>
    if p = default_config_file then some sys
    else if p = "/home/u/.config/setproxy/proxy.conf".toList then some user
    else none
  posixly_correct := false
  socket_ok := true
  rcvtimeo_ok := true
  sndtimeo_ok := true
  inet_addr := fun _ => 1
  gethostbyname := fun _ => none
  connect_ok := fun _ _ => false

/-- The candidates that the loader reads from one file taken on its own, in
file order. -/
def loaded_candidates (content : List Char) : List CStr :=
  (read_config_stream content State.initial)._default_proxy

/-- The operands that a finished option scan leaves, none when the scan
returned an option. -/
def getopt_operands : GetoptRet → List CStr
  | GetoptRet.done operands => operands
  | GetoptRet.opt _ => []

/-- The address that `check_tcp_connectivity` connects to for a host (lines
231-244): the value of `inet_addr` unless it is `INADDR_NONE`, else the first
address found by `gethostbyname`; `none` when the host cannot be resolved. -/
def resolved_addr (env : Env) (host : CStr) : Option Nat :=
  if env.inet_addr host = INADDR_NONE then env.gethostbyname host
  else some (env.inet_addr host)

/-! ## Frame lemmas -/

theorem print_print (st : State) (a b : List Char) :
    (st.print a).print b = st.print (a ++ b) := by
  simp [State.print]

theorem check_tcp_connectivity_ret (env : Env) (host : CStr) (port : Nat) (st st' : State) :
    (check_tcp_connectivity env host port st).1 = (check_tcp_connectivity env host port st').1 := by
  unfold check_tcp_connectivity
  cases env.socket_ok <;> simp
  split <;> [split; skip] <;> rfl

theorem check_tcp_connectivity_frame (env : Env) (host : CStr) (port : Nat) (st : State) :
    (check_tcp_connectivity env host port st).2.stdout = st.stdout
    ∧ (check_tcp_connectivity env host port st).2.no_proxy = st.no_proxy
    ∧ (check_tcp_connectivity env host port st).2._default_proxy = st._default_proxy
    ∧ (check_tcp_connectivity env host port st).2.probes = st.probes
    ∧ (check_tcp_connectivity env host port st).2.tcp = st.tcp ++ [(host, port)] := by
  unfold check_tcp_connectivity
  cases env.socket_ok <;> cases env.rcvtimeo_ok <;> cases env.sndtimeo_ok
    <;> simp [State.eprint] <;> split <;> (try split) <;> simp

theorem check_proxy_connectivity_ret (env : Env) (e : CStr) (st st' : State) :
    (check_proxy_connectivity env e st).1 = (check_proxy_connectivity env e st').1 := by
  unfold check_proxy_connectivity
  simp only []
  split
  · rfl
  · split
    · rfl
    · split
      · rfl
      · split
        · rfl
        · split
          · rfl
          · split
            · rfl
            · exact check_tcp_connectivity_ret _ _ _ _ _

theorem check_proxy_connectivity_frame (env : Env) (e : CStr) (st : State) :
    (check_proxy_connectivity env e st).2.stdout = st.stdout
    ∧ (check_proxy_connectivity env e st).2.no_proxy = st.no_proxy
    ∧ (check_proxy_connectivity env e st).2._default_proxy = st._default_proxy
    ∧ (check_proxy_connectivity env e st).2.probes = st.probes ++ [e] := by
  unfold check_proxy_connectivity
  simp only []
  split
  · simp [State.eprint]
  · split
    · simp [State.eprint]
    · split
      · simp [State.eprint]
      · split
        · simp [State.eprint]
        · split
          · simp [State.eprint]
          · split
            · simp [State.eprint]
            · have h := check_tcp_connectivity_frame
              exact ⟨(h _ _ _ _).1, (h _ _ _ _).2.1, (h _ _ _ _).2.2.1, (h _ _ _ _).2.2.2.1⟩

theorem probe_ok_iff (env : Env) (e : CStr) (st : State) :
    probe_ok env e = true ↔ (check_proxy_connectivity env e st).1 = 0 := by
  simp [probe_ok, check_proxy_connectivity_ret env e State.initial st]

/-! ## The emitter -/

theorem unset_proxy_notty (env : Env) (st : State) (h : env.isatty_stdout = false) :
    unset_proxy env st = (0, st.print unset_block) := by
  simp [unset_proxy, h, _env_var_proxy, State.print, unset_block, strtoupper, toupper]

theorem unset_proxy_tty (env : Env) (st : State) (h : env.isatty_stdout = true) :
    unset_proxy env st = (1, st.eprint (error_message ++ "\n".toList)) := by
  simp [unset_proxy, h]

theorem set_proxy_ok (env : Env) (e : CStr) (st : State) (h : probe_ok env e = true) :
    set_proxy env e st
      = (0, (check_proxy_connectivity env e st).2.print (set_block e (fmt_s st.no_proxy))) := by
  have h0 := (probe_ok_iff env e st).1 h
  have hf := (check_proxy_connectivity_frame env e st).2.1
  simp [set_proxy, h0, _env_var_proxy, State.print, set_block, export_line, strtoupper,
    toupper, hf]

theorem set_proxy_fail (env : Env) (e : CStr) (st : State) (h : probe_ok env e = false) :
    set_proxy env e st = (-1, (check_proxy_connectivity env e st).2) := by
  have h0 : ¬ (check_proxy_connectivity env e st).1 = 0 := by
    rw [← probe_ok_iff env e st, h]; simp
  simp [set_proxy, h0]

/-! ## The candidate loops -/

theorem try_each_append (env : Env) (xs ys : List CStr) (st : State) :
    try_each env (xs ++ ys) st
      = if (try_each env xs st).1 then try_each env xs st
        else try_each env ys (try_each env xs st).2 := by
  induction xs generalizing st with
  | nil => simp [try_each]
  | cons x xs ih =>
    simp only [List.cons_append, try_each]
    split
    · simp
    · exact ih _

theorem try_each_default_proxy (env : Env) (cs : List CStr) (st : State) :
    (try_each env cs st).2._default_proxy = st._default_proxy := by
  induction cs generalizing st with
  | nil => rfl
  | cons c cs ih =>
    have hf := (check_proxy_connectivity_frame env c st).2.2.1
    cases h : probe_ok env c
    · simp [try_each, set_proxy_fail env c st h, ih, hf]
    · simp [try_each, set_proxy_ok env c st h, State.print, hf]

theorem try_each_all_fail (env : Env) (cs : List CStr) (st : State)
    (h : ∀ c ∈ cs, probe_ok env c = false) :
    (try_each env cs st).1 = false
    ∧ (try_each env cs st).2.stdout = st.stdout
    ∧ (try_each env cs st).2.no_proxy = st.no_proxy
    ∧ (try_each env cs st).2.probes = st.probes ++ cs := by
  induction cs generalizing st with
  | nil => simp [try_each]
  | cons c cs ih =>
    have hc := h c (List.mem_cons_self _ _)
    have hf := check_proxy_connectivity_frame env c st
    have ih' := ih (check_proxy_connectivity env c st).2
      (fun d hd => h d (List.mem_cons_of_mem _ hd))
    simp [try_each, set_proxy_fail env c st hc, ih', hf.1, hf.2.1, hf.2.2.2]

theorem try_each_first_ok (env : Env) (pre post : List CStr) (e : CStr) (st : State)
    (hpre : ∀ c ∈ pre, probe_ok env c = false) (he : probe_ok env e = true) :
    (try_each env (pre ++ e :: post) st).1 = true
    ∧ (try_each env (pre ++ e :: post) st).2.stdout
        = st.stdout ++ set_block e (fmt_s st.no_proxy)
    ∧ (try_each env (pre ++ e :: post) st).2.probes = st.probes ++ pre ++ [e] := by
  have hp := try_each_all_fail env pre st hpre
  have hf := check_proxy_connectivity_frame env e (try_each env pre st).2
  rw [try_each_append]
  simp [hp.1, try_each, set_proxy_ok env e _ he, State.print, hf.1, hf.2.2.2, hp.2.1,
    hp.2.2.1, hp.2.2.2]

/-! ## The driver -/

theorem main_select (env : Env) (argv operands : List CStr)
    (htty : env.isatty_stdout = false)
    (hopt : getopt env.posixly_correct argv "uvh".toList = GetoptRet.done operands) :
    main env argv
      = (0, cleanup (try_each env (operands ++ (init_config env State.initial)._default_proxy)
          (init_config env State.initial)).2) := by
  rw [try_each_append]
  simp only [main, hopt, htty]
  cases h : (try_each env operands (init_config env State.initial)).1
  · simp [try_each_default_proxy]
  · simp

theorem cleanup_frame (st : State) :
    (cleanup st).stdout = st.stdout ∧ (cleanup st).probes = st.probes
    ∧ (cleanup st).tcp = st.tcp ∧ (cleanup st).stderr = st.stderr := by
  simp [cleanup]

/-! ## The loader leaves the streams and the probe record alone -/

theorem read_config_line_frame (buf : List Char) (st : State) :
    (read_config_line buf st).stdout = st.stdout
    ∧ (read_config_line buf st).stderr = st.stderr
    ∧ (read_config_line buf st).probes = st.probes
    ∧ (read_config_line buf st).tcp = st.tcp
    ∧ ((read_config_line buf st).no_proxy.isSome = true ∨
        (read_config_line buf st).no_proxy = st.no_proxy) := by
  unfold read_config_line
  simp only []
  repeat' split
  all_goals simp

theorem read_config_loop_frame (fuel : Nat) (stream : List Char) (st : State) :
    (read_config_loop fuel stream st).stdout = st.stdout
    ∧ (read_config_loop fuel stream st).stderr = st.stderr
    ∧ (read_config_loop fuel stream st).probes = st.probes
    ∧ (read_config_loop fuel stream st).tcp = st.tcp
    ∧ (st.no_proxy.isSome = true → (read_config_loop fuel stream st).no_proxy.isSome = true) := by
  induction fuel generalizing stream st with
  | zero => simp [read_config_loop]
  | succ fuel ih =>
    unfold read_config_loop
    split
    · simp
    · rename_i buf rest _
      have h1 := read_config_line_frame buf st
      have h2 := ih rest (read_config_line buf st)
      refine ⟨by rw [h2.1, h1.1], by rw [h2.2.1, h1.2.1], by rw [h2.2.2.1, h1.2.2.1],
        by rw [h2.2.2.2.1, h1.2.2.2.1], fun hs => h2.2.2.2.2 ?_⟩
      rcases h1.2.2.2.2 with h | h
      · exact h
      · rw [h]; exact hs

theorem read_config_file_frame (env : Env) (path : CStr) (st : State) :
    (read_config_file env path st).stdout = st.stdout
    ∧ (read_config_file env path st).probes = st.probes
    ∧ (read_config_file env path st).tcp = st.tcp
    ∧ (st.no_proxy.isSome = true → (read_config_file env path st).no_proxy.isSome = true) := by
  unfold read_config_file
  split
  · simp [State.eprint]
  · split
    · simp
    · have h := read_config_loop_frame
      exact ⟨(h _ _ _).1, (h _ _ _).2.2.1, (h _ _ _).2.2.2.1, (h _ _ _).2.2.2.2⟩

theorem init_config_frame (env : Env) :
    (init_config env State.initial).stdout = []
    ∧ (init_config env State.initial).probes = []
    ∧ (init_config env State.initial).tcp = []
    ∧ (init_config env State.initial).no_proxy.isSome = true := by
  unfold init_config
  simp only []
  have h1 := read_config_file_frame env default_config_file
    { State.initial with no_proxy := some default_no_proxy }
  have h2 := read_config_file_frame env user_config_file
    (read_config_file env default_config_file
      { State.initial with no_proxy := some default_no_proxy })
  refine ⟨by rw [h2.1, h1.1]; rfl, by rw [h2.2.1, h1.2.1]; rfl,
    by rw [h2.2.2.1, h1.2.2.1]; rfl, h2.2.2.2 (h1.2.2.2 rfl)⟩

/-! ## Claims about the driver and the emitter -/

/-- C1, as amended: when standard output is a terminal and the option scan
ends without an option, or returns `-u`, `main` writes nothing to standard
output and exits with code 1.  (The `-v`, `-h` and unknown-option arms print
without looking at the terminal.) -/
theorem C1_terminal_rail (env : Env) (argv : List CStr)
    (htty : env.isatty_stdout = true)
    (hopt : getopt env.posixly_correct argv "uvh".toList = GetoptRet.opt 'u'
      ∨ ∃ operands, getopt env.posixly_correct argv "uvh".toList = GetoptRet.done operands) :
    (main env argv).2.stdout = [] ∧ (main env argv).1 = 1 := by
  have hi := (init_config_frame env).1
  rcases hopt with h | ⟨operands, h⟩
  · simp only [main, h]
    simp [unset_proxy_tty env _ htty, State.eprint, hi]
  · simp only [main, h]
    simp [htty, cleanup, State.eprint, hi]

/-- C1 witness: `setproxy host:3128` on a terminal. -/
theorem C1_terminal_rail_witness :
    (main (sample_env true) ["setproxy".toList, "host:3128".toList]).2.stdout = []
    ∧ (main (sample_env true) ["setproxy".toList, "host:3128".toList]).1 = 1 :=
  C1_terminal_rail (sample_env true) ["setproxy".toList, "host:3128".toList] rfl
    (Or.inr ⟨["host:3128".toList], by decide⟩)

/-- C1 as stated fails: with standard output a terminal, `setproxy -v` writes
the version line to standard output and exits with code 0. -/
theorem C1_counterexample :
    (sample_env true).isatty_stdout = true
    ∧ (main (sample_env true) ["setproxy".toList, "-v".toList]).2.stdout
        = "setproxy, version 0.1.0\n".toList
    ∧ (main (sample_env true) ["setproxy".toList, "-v".toList]).1 = 0 := by
  decide

/-- C2: with no option and standard output not a terminal, if `e` is the first
candidate that probes ok in the sequence of operands followed by the loaded
configuration candidates, then standard output is exactly the set block for
`e` and the loaded no_proxy value, the exit code is 0, and the candidates
probed are those up to and including `e`, once each and in order. -/
theorem C2_first_success_wins (env : Env) (argv operands pre post : List CStr) (e : CStr)
    (htty : env.isatty_stdout = false)
    (hopt : getopt env.posixly_correct argv "uvh".toList = GetoptRet.done operands)
    (hseq : operands ++ (init_config env State.initial)._default_proxy = pre ++ e :: post)
    (hpre : ∀ c ∈ pre, probe_ok env c = false)
    (he : probe_ok env e = true) :
    (main env argv).1 = 0
    ∧ (∃ n, (init_config env State.initial).no_proxy = some n
        ∧ (main env argv).2.stdout = set_block e n)
    ∧ (main env argv).2.probes = pre ++ [e] := by
  have hi := init_config_frame env
  have ht := try_each_first_ok env pre post e (init_config env State.initial) hpre he
  rw [main_select env argv operands htty hopt, hseq]
  obtain ⟨n, hn⟩ := Option.isSome_iff_exists.1 hi.2.2.2
  refine ⟨rfl, ⟨n, hn, ?_⟩, ?_⟩
  · rw [(cleanup_frame _).1, ht.2.1, hi.1, hn]; rfl
  · rw [(cleanup_frame _).2.1, ht.2.2, hi.2.1]; simp

/-- C2 witness: the first operand is refused, the second one answers. -/
theorem C2_first_success_wins_witness :
    (main (sample_env false) ["setproxy".toList, "a:1".toList, "b:3128".toList,
        "c:3128".toList]).1 = 0
    ∧ (∃ n, (init_config (sample_env false) State.initial).no_proxy = some n
        ∧ (main (sample_env false) ["setproxy".toList, "a:1".toList, "b:3128".toList,
            "c:3128".toList]).2.stdout = set_block "b:3128".toList n)
    ∧ (main (sample_env false) ["setproxy".toList, "a:1".toList, "b:3128".toList,
        "c:3128".toList]).2.probes = ["a:1".toList] ++ ["b:3128".toList] :=
  C2_first_success_wins (sample_env false)
    ["setproxy".toList, "a:1".toList, "b:3128".toList, "c:3128".toList]
    ["a:1".toList, "b:3128".toList, "c:3128".toList] ["a:1".toList] ["c:3128".toList]
    "b:3128".toList rfl (by decide) (by decide) (by decide) (by decide)

/-- C3: when the probe of `e` is ok, `set_proxy` appends exactly the eight
export lines of the set block (endpoint and no_proxy value copied verbatim, the
upper-case names being the stems upper-cased by `strtoupper`) to standard
output and returns 0; when the probe fails it writes nothing to standard
output and returns -1. -/
theorem C3_set_block (env : Env) (e n : CStr) (st : State) (hn : st.no_proxy = some n) :
    (probe_ok env e = true →
      (set_proxy env e st).1 = 0
      ∧ (set_proxy env e st).2.stdout = st.stdout
          ++ ("export all_proxy=\"".toList ++ e ++ "\"\n".toList
            ++ "export http_proxy=\"".toList ++ e ++ "\"\n".toList
            ++ "export https_proxy=\"".toList ++ e ++ "\"\n".toList
            ++ "export no_proxy=\"".toList ++ n ++ "\"\n".toList
            ++ "export ALL_PROXY=\"".toList ++ e ++ "\"\n".toList
            ++ "export HTTP_PROXY=\"".toList ++ e ++ "\"\n".toList
            ++ "export HTTPS_PROXY=\"".toList ++ e ++ "\"\n".toList
            ++ "export NO_PROXY=\"".toList ++ n ++ "\"\n".toList))
    ∧ (probe_ok env e = false →
      (set_proxy env e st).1 = -1 ∧ (set_proxy env e st).2.stdout = st.stdout)
    ∧ _env_var_proxy.map strtoupper = ["ALL".toList, "HTTP".toList, "HTTPS".toList] := by
  have hf := (check_proxy_connectivity_frame env e st).1
  refine ⟨fun h => ?_, fun h => ?_, by decide⟩
  · rw [set_proxy_ok env e st h]
    simp [State.print, hf, hn, fmt_s, set_block, export_line]
  · rw [set_proxy_fail env e st h]
    exact ⟨rfl, hf⟩

/-- C3 witness: an endpoint that answers, with no_proxy value `x,y`. -/
theorem C3_set_block_witness :
    (set_proxy (sample_env false) "b:3128".toList
        { State.initial with no_proxy := some "x,y".toList }).1 = 0
    ∧ (set_proxy (sample_env false) "b:3128".toList
        { State.initial with no_proxy := some "x,y".toList }).2.stdout
      = ("export all_proxy=\"b:3128\"\nexport http_proxy=\"b:3128\"\n"
          ++ "export https_proxy=\"b:3128\"\nexport no_proxy=\"x,y\"\n"
          ++ "export ALL_PROXY=\"b:3128\"\nexport HTTP_PROXY=\"b:3128\"\n"
          ++ "export HTTPS_PROXY=\"b:3128\"\nexport NO_PROXY=\"x,y\"\n").toList := by
  have h := (C3_set_block (sample_env false) "b:3128".toList "x,y".toList
    { State.initial with no_proxy := some "x,y".toList } rfl).1 (by decide)
  exact ⟨h.1, h.2.trans rfl⟩

/-- C4: when `-u` is the first option processed and standard output is not a
terminal, standard output is exactly the eight lines of the unset block and
the exit code is 0, whatever the configuration and the other arguments. -/
theorem C4_unset_block (env : Env) (argv : List CStr)
    (htty : env.isatty_stdout = false)
    (hopt : getopt env.posixly_correct argv "uvh".toList = GetoptRet.opt 'u') :
    (main env argv).2.stdout
      = ("unset all_proxy\nunset http_proxy\nunset https_proxy\nunset no_proxy\n"
          ++ "unset ALL_PROXY\nunset HTTP_PROXY\nunset HTTPS_PROXY\nunset NO_PROXY\n").toList
    ∧ (main env argv).1 = 0 := by
  have hi := (init_config_frame env).1
  simp only [main, hopt]
  simp [unset_proxy_notty env _ htty, State.print, hi, unset_block]

/-- C4 witness: `setproxy host:3128 -u` with glibc's argument permutation. -/
theorem C4_unset_block_witness :
    (main (sample_env false) ["setproxy".toList, "host:3128".toList, "-u".toList]).2.stdout
      = ("unset all_proxy\nunset http_proxy\nunset https_proxy\nunset no_proxy\n"
          ++ "unset ALL_PROXY\nunset HTTP_PROXY\nunset HTTPS_PROXY\nunset NO_PROXY\n").toList
    ∧ (main (sample_env false) ["setproxy".toList, "host:3128".toList, "-u".toList]).1 = 0 :=
  C4_unset_block (sample_env false) ["setproxy".toList, "host:3128".toList, "-u".toList]
    rfl (by decide)

/-- C7: with no option and standard output not a terminal, when every
candidate probes as fail (also when there is no candidate), every candidate
of the sequence (operands, then loaded configuration candidates) is probed
once and in order, standard output is empty, and the exit code is 0. -/
theorem C7_exhaustion (env : Env) (argv operands : List CStr)
    (htty : env.isatty_stdout = false)
    (hopt : getopt env.posixly_correct argv "uvh".toList = GetoptRet.done operands)
    (hall : ∀ c ∈ operands ++ (init_config env State.initial)._default_proxy,
      probe_ok env c = false) :
    (main env argv).2.probes = operands ++ (init_config env State.initial)._default_proxy
    ∧ (main env argv).2.stdout = []
    ∧ (main env argv).1 = 0 := by
  have hi := init_config_frame env
  have ht := try_each_all_fail env _ (init_config env State.initial) hall
  rw [main_select env argv operands htty hopt]
  refine ⟨?_, ?_, rfl⟩
  · rw [(cleanup_frame _).2.1, ht.2.2.2, hi.2.1]; simp
  · rw [(cleanup_frame _).1, ht.2.1, hi.1]

/-- C7 witness: two operands, both refused, and no configuration. -/
theorem C7_exhaustion_witness :
    (main (sample_env false) ["setproxy".toList, "a:1".toList, "b".toList]).2.probes
      = ["a:1".toList, "b".toList] ++ (init_config (sample_env false) State.initial)._default_proxy
    ∧ (main (sample_env false) ["setproxy".toList, "a:1".toList, "b".toList]).2.stdout = []
    ∧ (main (sample_env false) ["setproxy".toList, "a:1".toList, "b".toList]).1 = 0 :=
  C7_exhaustion (sample_env false) ["setproxy".toList, "a:1".toList, "b".toList]
    ["a:1".toList, "b".toList] rfl (by decide) (by decide)

/-! ## Claims about the prober -/

/-- C5 fails on the code: these endpoints are malformed in the words of the
specification (empty host or a port part after the first `:` that is not a
decimal integer), yet `check_proxy_connectivity` hands each of them to
`check_tcp_connectivity` and returns its answer. -/
theorem C5_malformed_endpoints_reach_tcp (env : Env) (st : State) :
    (spec_endpoint_ok "host::8080".toList = false
      ∧ (check_proxy_connectivity env "host::8080".toList st).2.tcp
          = st.tcp ++ [("host".toList, 8080)]
      ∧ (check_proxy_connectivity env "host::8080".toList st).1
          = (check_tcp_connectivity env "host".toList 8080 st).1)
    ∧ (spec_endpoint_ok "host:8080:x".toList = false
      ∧ (check_proxy_connectivity env "host:8080:x".toList st).2.tcp
          = st.tcp ++ [("host".toList, 8080)])
    ∧ (spec_endpoint_ok "host:8080:".toList = false
      ∧ (check_proxy_connectivity env "host:8080:".toList st).2.tcp
          = st.tcp ++ [("host".toList, 8080)])
    ∧ (spec_endpoint_ok "host: 80".toList = false
      ∧ (check_proxy_connectivity env "host: 80".toList st).2.tcp
          = st.tcp ++ [("host".toList, 80)])
    ∧ (spec_endpoint_ok ":host:80".toList = false
      ∧ (check_proxy_connectivity env ":host:80".toList st).2.tcp
          = st.tcp ++ [("host".toList, 80)]) := by
  have h := check_tcp_connectivity_frame env
  have hr := check_tcp_connectivity_ret env
  refine ⟨⟨by decide, ?_, ?_⟩, ⟨by decide, ?_⟩, ⟨by decide, ?_⟩, ⟨by decide, ?_⟩,
    ⟨by decide, ?_⟩⟩
  · exact (h "host".toList 8080 _).2.2.2.2
  · exact hr "host".toList 8080 _ _
  · exact (h "host".toList 8080 _).2.2.2.2
  · exact (h "host".toList 8080 _).2.2.2.2
  · exact (h "host".toList 80 _).2.2.2.2
  · exact (h "host".toList 80 _).2.2.2.2

theorem isdigit_not_special (c : Char) (h : isdigit c = true) :
    c ≠ ':' ∧ isspace c = false ∧ c ≠ '-' ∧ c ≠ '+' := by
  refine ⟨?_, ?_, ?_, ?_⟩
  · rintro rfl; revert h; decide
  · simp only [isspace, Bool.or_eq_false_iff, decide_eq_false_iff_not]
    refine ⟨⟨⟨⟨⟨?_, ?_⟩, ?_⟩, ?_⟩, ?_⟩, ?_⟩ <;> (rintro rfl; revert h; decide)
  · rintro rfl; revert h; decide
  · rintro rfl; revert h; decide

theorem colon_contains (c : Char) : ":".toList.contains c = (c == ':') := by
  simp only [List.contains, String.toList, List.elem]
  cases c == ':' <;> rfl

theorem strtok_token (tok rest : CStr) (hne : tok ≠ []) (hno : ∀ c ∈ tok, c ≠ ':') :
    strtok (tok ++ ':' :: rest) ":".toList = some (tok, rest) := by
  have hp : ∀ c ∈ tok, (!":".toList.contains c) = true := by
    intro c hc; simp [colon_contains, hno c hc]
  cases tok with
  | nil => exact absurd rfl hne
  | cons t ts =>
    have ht : ¬ (":".toList.contains t) = true := by
      simp [colon_contains, hno t (List.mem_cons_self _ _)]
    unfold strtok
    simp only [List.cons_append, List.dropWhile_cons_of_neg ht]
    rw [← List.cons_append, List.takeWhile_append_of_pos hp, List.dropWhile_append_of_pos hp]
    simp [colon_contains]

theorem strtok_last (tok : CStr) (hne : tok ≠ []) (hno : ∀ c ∈ tok, c ≠ ':') :
    strtok tok ":".toList = some (tok, []) := by
  have hp : ∀ c ∈ tok, (!":".toList.contains c) = true := by
    intro c hc; simp [colon_contains, hno c hc]
  cases tok with
  | nil => exact absurd rfl hne
  | cons t ts =>
    have ht : ¬ (":".toList.contains t) = true := by
      simp [colon_contains, hno t (List.mem_cons_self _ _)]
    unfold strtok
    simp only [List.dropWhile_cons_of_neg ht]
    rw [List.takeWhile_eq_self_iff.2 hp, List.dropWhile_eq_nil_iff.2 hp]
    simp

theorem strtol_digits (ds : CStr) (hne : ds ≠ []) (hd : ∀ c ∈ ds, isdigit c = true)
    (hv : digits_value ds ≤ 65535) :
    strtol ds = ((digits_value ds : Int), []) := by
  cases ds with
  | nil => exact absurd rfl hne
  | cons d ds =>
    have h0 := isdigit_not_special d (hd d (List.mem_cons_self _ _))
    have hs : ¬ isspace d = true := by simp [h0.2.1]
    have hv' : ((digits_value (d :: ds) : Nat) : Int) ≤ LONG_MAX := by
      have : ((digits_value (d :: ds) : Nat) : Int) ≤ 65535 := by exact_mod_cast hv
      exact le_trans this (by decide)
    unfold strtol
    simp only [List.dropWhile_cons_of_neg hs, List.head?_cons, Option.some.injEq, h0.2.2.1,
      h0.2.2.2, or_self, if_false, List.takeWhile_eq_self_iff.2 hd,
      List.dropWhile_eq_nil_iff.2 hd]
    simp [hv']

theorem check_tcp_connectivity_zero_iff (env : Env) (host : CStr) (port : Nat) (st : State) :
    ((check_tcp_connectivity env host port st).1 = 0 ↔
      env.socket_ok = true
      ∧ ∃ a, resolved_addr env host = some a ∧ env.connect_ok a port = true)
    ∧ ((check_tcp_connectivity env host port st).1 = 0
      ∨ (check_tcp_connectivity env host port st).1 = -1) := by
  unfold check_tcp_connectivity resolved_addr
  cases hs : env.socket_ok
  · simp
  · simp only [Bool.not_true, Bool.false_eq_true, if_false, true_and]
    by_cases ha : env.inet_addr host = INADDR_NONE
    · simp only [if_pos ha]
      cases hg : env.gethostbyname host with
      | none => simp
      | some a => cases hc : env.connect_ok a port <;> simp [hc]
    · simp only [if_neg ha]
      cases hc : env.connect_ok (env.inet_addr host) port <;> simp [hc]

/-- C6: for an endpoint `HOST:PORT` with `HOST` non-empty and free of `:` and
`PORT` a non-empty run of decimal digits of value `p` in [1, 65535],
`check_proxy_connectivity` calls `check_tcp_connectivity` exactly once, with
host `HOST` and port `p`, and returns what that call returns; it returns 0
exactly when the connect attempt succeeded, that is when the socket was
created, `HOST` resolved to an address and `connect` to that address and port
`p` succeeded, and it returns -1 otherwise. -/
theorem C6_wellformed_endpoint (env : Env) (HOST PORT : CStr) (st : State)
    (hhost : HOST ≠ []) (hcolon : ∀ c ∈ HOST, c ≠ ':')
    (hport : PORT ≠ []) (hdigits : ∀ c ∈ PORT, isdigit c = true)
    (hlo : 1 ≤ digits_value PORT) (hhi : digits_value PORT ≤ 65535) :
    check_proxy_connectivity env (HOST ++ ':' :: PORT) st
      = check_tcp_connectivity env HOST (digits_value PORT)
          { st with probes := st.probes ++ [HOST ++ ':' :: PORT] }
    ∧ (check_proxy_connectivity env (HOST ++ ':' :: PORT) st).2.tcp
      = st.tcp ++ [(HOST, digits_value PORT)]
    ∧ (check_proxy_connectivity env (HOST ++ ':' :: PORT) st).1
      = (check_tcp_connectivity env HOST (digits_value PORT) st).1
    ∧ ((check_proxy_connectivity env (HOST ++ ':' :: PORT) st).1 = 0 ↔
        env.socket_ok = true
        ∧ ∃ a, resolved_addr env HOST = some a
          ∧ env.connect_ok a (digits_value PORT) = true)
    ∧ ((check_proxy_connectivity env (HOST ++ ':' :: PORT) st).1 = 0
      ∨ (check_proxy_connectivity env (HOST ++ ':' :: PORT) st).1 = -1) := by
  have hnc : ∀ c ∈ PORT, c ≠ ':' := fun c hc => (isdigit_not_special c (hdigits c hc)).1
  have key : check_proxy_connectivity env (HOST ++ ':' :: PORT) st
      = check_tcp_connectivity env HOST (digits_value PORT)
          { st with probes := st.probes ++ [HOST ++ ':' :: PORT] } := by
    unfold check_proxy_connectivity
    simp only [strtok_token HOST PORT hhost hcolon, strtok_last PORT hport hnc,
      strtol_digits PORT hport hdigits hhi]
    have h1 : ¬ ((digits_value PORT : Int) ≤ 0) := by
      have : (1 : Int) ≤ (digits_value PORT : Int) := by exact_mod_cast hlo
      omega
    have h2 : ¬ ((digits_value PORT : Int) > 65535) := by
      have : (digits_value PORT : Int) ≤ 65535 := by exact_mod_cast hhi
      omega
    simp [hhost, hport, h1, h2]
  refine ⟨key, ?_, ?_, ?_, ?_⟩
  · rw [key]; exact (check_tcp_connectivity_frame _ _ _ _).2.2.2.2
  · rw [key]; exact check_tcp_connectivity_ret _ _ _ _ _
  · rw [key]; exact (check_tcp_connectivity_zero_iff _ _ _ _).1
  · rw [key]; exact (check_tcp_connectivity_zero_iff _ _ _ _).2

/-- C6 witness: the endpoint `proxy.example:3128`, which answers: one TCP
check with host `proxy.example` and port 3128, and the return value is 0. -/
theorem C6_wellformed_endpoint_witness :
    (check_proxy_connectivity (sample_env false)
        ("proxy.example".toList ++ ':' :: "3128".toList) State.initial).2.tcp
      = State.initial.tcp ++ [("proxy.example".toList, digits_value "3128".toList)]
    ∧ (check_proxy_connectivity (sample_env false)
        ("proxy.example".toList ++ ':' :: "3128".toList) State.initial).1 = 0 :=
  ⟨(C6_wellformed_endpoint (sample_env false) "proxy.example".toList "3128".toList
      State.initial (by decide) (by decide) (by decide) (by decide) (by decide)
      (by decide)).2.1,
   (C6_wellformed_endpoint (sample_env false) "proxy.example".toList "3128".toList
      State.initial (by decide) (by decide) (by decide) (by decide) (by decide)
      (by decide)).2.2.2.1.2 ⟨rfl, 1, by decide, by decide⟩⟩

/-! ## Reading a configuration stream line by line -/

theorem fgets_scan_line (l tail : List Char) (n : Nat) (hnl : '\n' ∉ l) (hlen : l.length < n)
    (ht : tail = [] ∨ tail.head? = some '\n') :
    fgets_scan n (l ++ tail) = (l ++ tail.take 1, tail.drop 1) := by
  induction l generalizing n with
  | nil =>
    obtain ⟨m, rfl⟩ : ∃ m, n = m + 1 := ⟨n - 1, by simp at hlen; omega⟩
    cases tail with
    | nil => simp [fgets_scan]
    | cons c r =>
      have hc : c = '\n' := by simpa using ht
      simp [fgets_scan, hc]
  | cons c l ih =>
    obtain ⟨m, rfl⟩ : ∃ m, n = m + 1 := ⟨n - 1, by simp at hlen; omega⟩
    have hc : c ≠ '\n' := fun h => hnl (h ▸ List.mem_cons_self _ _)
    have hl : '\n' ∉ l := fun h => hnl (List.mem_cons_of_mem _ h)
    have := ih m hl (by simpa using hlen)
    simp [fgets_scan, hc, this]

theorem fgets_scan_length (n : Nat) (s : List Char) :
    (fgets_scan n s).1.length + (fgets_scan n s).2.length = s.length := by
  induction s generalizing n with
  | nil => cases n <;> simp [fgets_scan]
  | cons c s ih =>
    cases n with
    | zero => simp [fgets_scan]
    | succ n =>
      by_cases hc : c = '\n'
      · simp [fgets_scan, hc]; omega
      · have := ih n
        simp [fgets_scan, hc]; omega

theorem fgets_progress (s buf rest : List Char) (h : fgets 1024 s = some (buf, rest)) :
    rest.length < s.length := by
  unfold fgets at h
  split at h
  · exact absurd h (by simp)
  · rename_i hs
    have h' : fgets_scan 1023 s = (buf, rest) := by simpa using h
    cases s with
    | nil => exact absurd rfl hs
    | cons c s =>
      have hl := fgets_scan_length 1022 s
      by_cases hc : c = '\n'
      · simp [fgets_scan, hc] at h'
        simp [← h'.2]
      · simp [fgets_scan, hc] at h'
        rw [← h'.2]; simp; omega

theorem read_config_loop_fuel_eq (f1 f2 : Nat) (s : List Char) (st : State)
    (h1 : s.length ≤ f1) (h2 : s.length ≤ f2) :
    read_config_loop f1 s st = read_config_loop f2 s st := by
  induction f1 generalizing f2 s st with
  | zero =>
    have hs : s = [] := List.length_eq_zero.1 (by omega)
    subst hs
    cases f2 <;> simp [read_config_loop, fgets]
  | succ f1 ih =>
    cases f2 with
    | zero =>
      have hs : s = [] := List.length_eq_zero.1 (by omega)
      subst hs
      simp [read_config_loop, fgets]
    | succ f2 =>
      unfold read_config_loop
      cases hg : fgets 1024 s with
      | none => rfl
      | some p =>
        obtain ⟨buf, rest⟩ := p
        have hp := fgets_progress s buf rest hg
        exact ih f2 rest _ (by omega) (by omega)

/-- The fuel of `read_config_stream` is enough: more fuel gives the same
state, so the loop always ends because `fgets` reports end of file. -/
theorem read_config_loop_fuel (fuel : Nat) (s : List Char) (st : State)
    (h : s.length ≤ fuel) :
    read_config_loop fuel s st = read_config_stream s st :=
  read_config_loop_fuel_eq fuel s.length s st h (le_refl _)

theorem read_config_stream_nil (st : State) : read_config_stream [] st = st := by
  simp [read_config_stream, read_config_loop]

theorem read_config_stream_step (s buf rest : List Char) (st : State)
    (h : fgets 1024 s = some (buf, rest)) :
    read_config_stream s st = read_config_stream rest (read_config_line buf st) := by
  have hp := fgets_progress s buf rest h
  obtain ⟨k, hk⟩ : ∃ k, s.length = k + 1 := ⟨s.length - 1, by omega⟩
  unfold read_config_stream
  rw [hk]
  simp only [read_config_loop, h]
  exact read_config_loop_fuel_eq _ _ _ _ (by omega) (le_refl _)

/-! ## One line of text: the loop body against the specification -/

theorem split_first (c : Char) (s : List Char) (h : c ∈ s) :
    ∃ a t, s = a ++ c :: t ∧ c ∉ a := by
  induction s with
  | nil => exact absurd h (List.not_mem_nil _)
  | cons x s ih =>
    by_cases hx : x = c
    · exact ⟨[], s, by simp [hx], List.not_mem_nil _⟩
    · have hs : c ∈ s := by
        rcases List.mem_cons.1 h with h | h
        · exact absurd h.symm hx
        · exact h
      obtain ⟨a, t, rfl, ha⟩ := ih hs
      refine ⟨x :: a, t, by simp, ?_⟩
      intro hm
      rcases List.mem_cons.1 hm with h | h
      · exact hx h.symm
      · exact ha h

theorem strchr_none (c : Char) (s : CStr) (h : c ∉ s) : strchr s c = none := by
  induction s with
  | nil => rfl
  | cons x s ih =>
    have hx : x ≠ c := fun e => h (e ▸ List.mem_cons_self _ _)
    simp [strchr, hx, ih (fun hm => h (List.mem_cons_of_mem _ hm))]

theorem strchr_some (c : Char) (a t : CStr) (h : c ∉ a) :
    strchr (a ++ c :: t) c = some (c :: t) := by
  induction a with
  | nil => simp [strchr]
  | cons x a ih =>
    have hx : x ≠ c := fun e => h (e ▸ List.mem_cons_self _ _)
    simp [strchr, hx, ih (fun hm => h (List.mem_cons_of_mem _ hm))]

theorem ne_quote_of_not_mem (a : List Char) (h : '"' ∉ a) :
    ∀ x ∈ a, (x != '"') = true := by
  intro x hx
  have : x ≠ '"' := fun e => h (e ▸ hx)
  simp [this]

theorem between_quotes_none (l : List Char) (h : '"' ∉ l) : between_quotes l = none := by
  unfold between_quotes
  rw [List.dropWhile_eq_nil_iff.2 (ne_quote_of_not_mem l h)]

theorem between_quotes_one (a t : List Char) (ha : '"' ∉ a) (ht : '"' ∉ t) :
    between_quotes (a ++ '"' :: t) = none := by
  unfold between_quotes
  rw [List.dropWhile_append_of_pos (ne_quote_of_not_mem a ha)]
  simp [ht]

theorem between_quotes_two (a v b : List Char) (ha : '"' ∉ a) (hv : '"' ∉ v) :
    between_quotes (a ++ '"' :: (v ++ '"' :: b)) = some v := by
  unfold between_quotes
  rw [List.dropWhile_append_of_pos (ne_quote_of_not_mem a ha)]
  simp only [bne_self_eq_false, Bool.false_eq_true, not_false_eq_true,
    List.dropWhile_cons_of_neg]
  rw [List.takeWhile_append_of_pos (ne_quote_of_not_mem v hv)]
  simp

theorem between_quotes_append_left (p r : List Char) (hp : '"' ∉ p) :
    between_quotes (p ++ r) = between_quotes r := by
  unfold between_quotes
  rw [List.dropWhile_append_of_pos (ne_quote_of_not_mem p hp)]

theorem quoted_eq_between_quotes (r : CStr) : quoted r = between_quotes r := by
  by_cases h1 : '"' ∈ r
  · obtain ⟨a, t, rfl, ha⟩ := split_first _ _ h1
    by_cases h2 : '"' ∈ t
    · obtain ⟨v, b, rfl, hv⟩ := split_first _ _ h2
      rw [between_quotes_two a v b ha hv]
      unfold quoted
      simp only [strchr_some _ a _ ha, List.drop_one, List.tail_cons, strchr_some _ v b hv]
      simp
    · rw [between_quotes_one a t ha h2]
      unfold quoted
      simp only [strchr_some _ a _ ha, List.drop_one, List.tail_cons, strchr_none _ t h2]
  · rw [between_quotes_none r h1]
    unfold quoted
    simp only [strchr_none _ r h1]

theorem cstr_text (buf : List Char) (h : NUL ∉ buf) : cstr buf = buf := by
  unfold cstr
  apply List.takeWhile_eq_self_iff.2
  intro x hx
  have : x ≠ NUL := fun e => h (e ▸ hx)
  simp [this]

theorem line_effect_nil (st : State) : line_effect [] st = st := by
  simp [line_effect, spec_proxy_value, spec_no_proxy_value]

theorem line_effect_comment (l : List Char) (st : State) :
    line_effect ('#' :: l) st = st := by
  have h1 : spec_proxy_value ('#' :: l) = none := by
    unfold spec_proxy_value
    rw [if_neg]
    intro h
    have := congrArg List.head? h
    simp at this
  have h2 : spec_no_proxy_value ('#' :: l) = none := by
    unfold spec_no_proxy_value
    rw [if_neg]
    intro h
    have := congrArg List.head? h
    simp at this
  simp [line_effect, h1, h2]

theorem read_config_line_text (l tl : List Char) (st : State)
    (hnl : '\n' ∉ l) (hnul : NUL ∉ l) (htl : tl = [] ∨ tl = ['\n']) :
    read_config_line (l ++ tl) st = line_effect l st := by
  have hbuf : NUL ∉ l ++ tl := by
    rcases htl with rfl | rfl
    · simpa using hnul
    · simp only [List.mem_append, List.mem_singleton, not_or]
      exact ⟨hnul, by decide⟩
  unfold read_config_line
  simp only [cstr_text _ hbuf]
  cases l with
  | nil =>
    rcases htl with rfl | rfl <;> simp [line_effect_nil]
  | cons c l =>
    have hc : c ≠ '\n' := fun e => hnl (e ▸ List.mem_cons_self _ _)
    by_cases hsharp : c = '#'
    · subst hsharp
      simp [line_effect_comment]
    · have hstrip : (if (c :: l ++ tl).getLast? = some '\n' then (c :: l ++ tl).dropLast
          else c :: l ++ tl) = c :: l := by
        rcases htl with rfl | rfl
        · have : ¬ (c :: l).getLast? = some '\n' := by
            intro h
            exact hnl (List.mem_of_mem_getLast? h)
          simp [this]
        · rw [if_pos (List.getLast?_concat _)]
          exact List.dropLast_concat
      have hskip : ¬ ((c :: l ++ tl).head? = some '#' ∨ (c :: l ++ tl).head? = some '\n'
          ∨ c :: l ++ tl = []) := by
        simp [hsharp, hc]
      rw [if_neg hskip]
      simp only [hstrip]
      unfold line_effect spec_proxy_value spec_no_proxy_value
      by_cases h6 : (c :: l).take 6 = "proxy=".toList
      · have hcmp : strncmp_eq (c :: l) "proxy=".toList 6 = true := by
          simp only [strncmp_eq, h6]; decide
        have hsplit : c :: l = "proxy=".toList ++ (c :: l).drop 6 := by
          rw [← h6]; exact (List.take_append_drop 6 _).symm
        have hb : between_quotes (c :: l) = quoted ((c :: l).drop 6) := by
          rw [quoted_eq_between_quotes]
          conv_lhs => rw [hsplit]
          exact between_quotes_append_left _ _ (by decide)
        rw [if_pos hcmp, if_pos h6, hb]
        cases quoted ((c :: l).drop 6) with
        | none =>
          simp only []
          have h9 : ¬ (c :: l).take 9 = "no_proxy=".toList := by
            intro h
            have e1 := congrArg List.head? h6
            have e2 := congrArg List.head? h
            simp at e1 e2
            rw [e1] at e2
            exact absurd e2 (by decide)
          rw [if_neg h9]
        | some v => rfl
      · have hcmp : ¬ strncmp_eq (c :: l) "proxy=".toList 6 = true := by
          simp only [strncmp_eq, beq_iff_eq]
          intro h
          exact h6 (h.trans (by decide))
        rw [if_neg hcmp, if_neg h6]
        simp only []
        by_cases h9 : (c :: l).take 9 = "no_proxy=".toList
        · have hcmp9 : strncmp_eq (c :: l) "no_proxy=".toList 9 = true := by
            simp only [strncmp_eq, h9]; decide
          have hsplit : c :: l = "no_proxy=".toList ++ (c :: l).drop 9 := by
            rw [← h9]; exact (List.take_append_drop 9 _).symm
          have hb : between_quotes (c :: l) = quoted ((c :: l).drop 9) := by
            rw [quoted_eq_between_quotes]
            conv_lhs => rw [hsplit]
            exact between_quotes_append_left _ _ (by decide)
          rw [if_pos hcmp9, if_pos h9, hb]
          cases quoted ((c :: l).drop 9) <;> rfl
        · have hcmp9 : ¬ strncmp_eq (c :: l) "no_proxy=".toList 9 = true := by
            simp only [strncmp_eq, beq_iff_eq]
            intro h
            exact h9 (h.trans (by decide))
          rw [if_neg hcmp9, if_neg h9]

theorem read_config_stream_line (l tail : List Char) (st : State) (hl : short_text_line l)
    (ht : tail = [] ∨ tail.head? = some '\n') :
    read_config_stream (l ++ tail) st = read_config_stream (tail.drop 1) (line_effect l st) := by
  obtain ⟨hlen, hnl, hnul⟩ := hl
  by_cases hs : l ++ tail = []
  · have h1 : l = [] := (List.append_eq_nil.1 hs).1
    have h2 : tail = [] := (List.append_eq_nil.1 hs).2
    subst h1 h2
    simp [read_config_stream_nil, line_effect_nil]
  · have hg : fgets 1024 (l ++ tail) = some (l ++ tail.take 1, tail.drop 1) := by
      unfold fgets
      rw [if_neg hs, fgets_scan_line l tail 1023 hnl hlen ht]
    rw [read_config_stream_step _ _ _ st hg]
    congr 1
    apply read_config_line_text l _ st hnl hnul
    rcases ht with rfl | ht
    · left; rfl
    · right
      cases tail with
      | nil => simp at ht
      | cons x r =>
        have : x = '\n' := by simpa using ht
        simp [this]

theorem between_quotes_few (l : List Char) (h : l.count '"' < 2) : between_quotes l = none := by
  by_cases h1 : '"' ∈ l
  · obtain ⟨a, t, rfl, ha⟩ := split_first _ _ h1
    have hc : (a ++ '"' :: t).count '"' = t.count '"' + 1 := by
      simp [List.count_append, List.count_eq_zero.2 ha]
    have ht : '"' ∉ t := List.count_eq_zero.1 (by omega)
    exact between_quotes_one a t ha ht
  · exact between_quotes_none l h1

/-! ## Claims about the loader -/

/-- C8, as amended: a line of a configuration file that is shorter than the
1023-byte read buffer and holds no NUL byte, followed by its newline or by the
end of the file, is handled by the loop of `read_config_file` as follows: (i) an empty line, a line beginning
with `#`, and a line beginning with neither `proxy=` nor `no_proxy=` leave the
state as it is; (ii) a line beginning with `proxy=` that has two `"` appends
the text strictly between the first and the second `"`, verbatim, when the
list has fewer than 10 entries (and leaves the state as it is otherwise);
(iii) a line beginning with `proxy=` or `no_proxy=` that has fewer than two
`"` leaves the state as it is.  In each case the loop goes on with the rest of
the file. -/
theorem C8_config_line_parsing (l tail : List Char) (st : State)
    (hlen : l.length < 1023) (hnl : '\n' ∉ l) (hnul : NUL ∉ l)
    (ht : tail = [] ∨ tail.head? = some '\n') :
    ((l = [] ∨ l.head? = some '#'
        ∨ (l.take 6 ≠ "proxy=".toList ∧ l.take 9 ≠ "no_proxy=".toList)) →
      read_config_stream (l ++ tail) st = read_config_stream (tail.drop 1) st)
    ∧ (∀ a v b : List Char, l.take 6 = "proxy=".toList →
        l = a ++ '"' :: (v ++ '"' :: b) → '"' ∉ a → '"' ∉ v →
      read_config_stream (l ++ tail) st = read_config_stream (tail.drop 1)
        (if st._default_proxy_count < 10 then
          { st with _default_proxy := st._default_proxy ++ [v] }
        else st))
    ∧ ((l.take 6 = "proxy=".toList ∨ l.take 9 = "no_proxy=".toList) → l.count '"' < 2 →
      read_config_stream (l ++ tail) st = read_config_stream (tail.drop 1) st) := by
  have key := read_config_stream_line l tail st ⟨hlen, hnl, hnul⟩ ht
  refine ⟨fun h => ?_, fun a v b h6 hsplit ha hv => ?_, fun _ hcount => ?_⟩
  · rw [key]
    congr 1
    rcases h with rfl | h | ⟨h6, h9⟩
    · exact line_effect_nil st
    · cases l with
      | nil => simp at h
      | cons c l =>
        have : c = '#' := by simpa using h
        subst this
        exact line_effect_comment l st
    · simp only [line_effect, spec_proxy_value, spec_no_proxy_value, if_neg h6, if_neg h9]
  · rw [key]
    congr 1
    have hb : between_quotes l = some v := by
      rw [hsplit]; exact between_quotes_two a v b ha hv
    simp [line_effect, spec_proxy_value, h6, hb, State._default_proxy_count]
  · rw [key]
    congr 1
    have hb := between_quotes_few l hcount
    simp [line_effect, spec_proxy_value, spec_no_proxy_value, hb]

/-- C8 witness: the line `proxy="a:1"` followed by a newline, read into the
initial state, appends `a:1`. -/
theorem C8_config_line_parsing_witness :
    read_config_stream "proxy=\"a:1\"\n".toList State.initial
      = { State.initial with _default_proxy := ["a:1".toList] } :=
  ((C8_config_line_parsing "proxy=\"a:1\"".toList "\n".toList State.initial
    (by decide) (by decide) (by decide) (Or.inr rfl)).2.1
    "proxy=".toList "a:1".toList [] rfl rfl (by decide) (by decide)).trans rfl

/-- C8 as stated fails: the line `proxy="a`, NUL, `b"` is shorter than the read
buffer, begins with `proxy=` and has two `"`, and the list is empty, yet the
loop appends nothing: the C string that the loop sees ends at the NUL byte,
before the second `"`. -/
theorem C8_counterexample :
    ("proxy=\"a".toList ++ NUL :: "b\"".toList).length < 1023
    ∧ '\n' ∉ "proxy=\"a".toList ++ NUL :: "b\"".toList
    ∧ ("proxy=\"a".toList ++ NUL :: "b\"".toList).take 6 = "proxy=".toList
    ∧ "proxy=\"a".toList ++ NUL :: "b\"".toList
        = "proxy=".toList ++ '"' :: (('a' :: NUL :: ['b']) ++ '"' :: [])
    ∧ '"' ∉ "proxy=".toList
    ∧ '"' ∉ 'a' :: NUL :: ['b']
    ∧ State.initial._default_proxy_count < 10
    ∧ read_config_stream (("proxy=\"a".toList ++ NUL :: "b\"".toList) ++ "\n".toList)
        State.initial = State.initial
    ∧ read_config_stream (("proxy=\"a".toList ++ NUL :: "b\"".toList) ++ "\n".toList)
        State.initial
      ≠ { State.initial with
          _default_proxy := State.initial._default_proxy ++ ['a' :: NUL :: ['b']] } := by
  decide

/-! ## A whole file against the specification -/

theorem file_lines_ne_nil (s : List Char) : file_lines s ≠ [] := by
  cases s with
  | nil => simp [file_lines]
  | cons c s =>
    unfold file_lines
    split
    · simp
    · split <;> simp

theorem file_lines_last (l : List Char) (hnl : '\n' ∉ l) : file_lines l = [l] := by
  induction l with
  | nil => rfl
  | cons c l ih =>
    have hc : c ≠ '\n' := fun e => hnl (e ▸ List.mem_cons_self _ _)
    simp [file_lines, hc, ih (fun h => hnl (List.mem_cons_of_mem _ h))]

theorem file_lines_line (l rest : List Char) (hnl : '\n' ∉ l) :
    file_lines (l ++ '\n' :: rest) = l :: file_lines rest := by
  induction l with
  | nil => simp [file_lines]
  | cons c l ih =>
    have hc : c ≠ '\n' := fun e => hnl (e ▸ List.mem_cons_self _ _)
    simp [file_lines, hc, ih (fun h => hnl (List.mem_cons_of_mem _ h))]

theorem exists_line_split (s : List Char) :
    ∃ l tail, s = l ++ tail ∧ '\n' ∉ l ∧ (tail = [] ∨ ∃ rest, tail = '\n' :: rest) := by
  induction s with
  | nil => exact ⟨[], [], rfl, List.not_mem_nil _, Or.inl rfl⟩
  | cons c s ih =>
    by_cases hc : c = '\n'
    · exact ⟨[], c :: s, rfl, List.not_mem_nil _, Or.inr ⟨s, by rw [hc]⟩⟩
    · obtain ⟨l, tail, rfl, hl, ht⟩ := ih
      refine ⟨c :: l, tail, rfl, ?_, ht⟩
      intro hm
      rcases List.mem_cons.1 hm with h | h
      · exact hc h.symm
      · exact hl h

theorem read_config_stream_lines_aux (n : Nat) :
    ∀ (s : List Char) (st : State), s.length ≤ n → short_text_file s →
      read_config_stream s st = (file_lines s).foldl (fun st l => line_effect l st) st := by
  induction n with
  | zero =>
    intro s st hn _
    have hs : s = [] := List.length_eq_zero.1 (by omega)
    subst hs
    simp [read_config_stream_nil, file_lines, line_effect_nil]
  | succ n ih =>
    intro s st hn hs
    obtain ⟨l, tail, rfl, hl, ht⟩ := exists_line_split s
    rcases ht with rfl | ⟨rest, rfl⟩
    · have hfl : file_lines (l ++ []) = [l] := by simpa using file_lines_last l hl
      have hst : short_text_line l := hs l (by rw [hfl]; exact List.mem_singleton_self _)
      rw [read_config_stream_line l [] st hst (Or.inl rfl), hfl]
      simp [read_config_stream_nil]
    · have hfl := file_lines_line l rest hl
      have hst : short_text_line l := hs l (by rw [hfl]; exact List.mem_cons_self _ _)
      have hrest : short_text_file rest := fun x hx =>
        hs x (by rw [hfl]; exact List.mem_cons_of_mem _ hx)
      rw [read_config_stream_line l ('\n' :: rest) st hst (Or.inr rfl), hfl]
      simp only [List.drop_one, List.tail_cons, List.foldl_cons]
      exact ih rest _ (by simp at hn; omega) hrest

theorem read_config_stream_lines (s : List Char) (st : State) (hs : short_text_file s) :
    read_config_stream s st = (file_lines s).foldl (fun st l => line_effect l st) st :=
  read_config_stream_lines_aux s.length s st (le_refl _) hs

theorem spec_values_exclusive (l : List Char) (v : CStr) (h : spec_proxy_value l = some v) :
    spec_no_proxy_value l = none := by
  unfold spec_proxy_value at h
  unfold spec_no_proxy_value
  split at h
  · rename_i h6
    rw [if_neg]
    intro h9
    have e1 := congrArg List.head? h6
    have e2 := congrArg List.head? h9
    cases l with
    | nil => simp at e1
    | cons c l =>
      simp at e1 e2
      rw [e1] at e2
      exact absurd e2 (by decide)
  · exact absurd h (by simp)

theorem line_effect_fields (l : List Char) (st : State) :
    (line_effect l st)._default_proxy
      = (match spec_proxy_value l with
        | some v => if st._default_proxy.length < 10 then st._default_proxy ++ [v]
                    else st._default_proxy
        | none => st._default_proxy)
    ∧ (line_effect l st).no_proxy
      = (match spec_no_proxy_value l with
        | some v => some v
        | none => st.no_proxy) := by
  unfold line_effect
  cases hp : spec_proxy_value l with
  | some v =>
    rw [spec_values_exclusive l v hp]
    simp only []
    split <;> simp
  | none =>
    simp only []
    cases spec_no_proxy_value l <;> simp

theorem foldl_line_effect_proxy (ls : List (List Char)) (st : State)
    (h : st._default_proxy.length ≤ 10) :
    (ls.foldl (fun st l => line_effect l st) st)._default_proxy
      = (st._default_proxy ++ ls.filterMap spec_proxy_value).take 10 := by
  induction ls generalizing st with
  | nil => simp [List.take_of_length_le h]
  | cons l ls ih =>
    have hf := (line_effect_fields l st).1
    simp only [List.foldl_cons]
    cases hp : spec_proxy_value l with
    | none =>
      rw [hp] at hf
      simp only [] at hf
      rw [ih _ (by rw [hf]; exact h), hf]
      simp [List.filterMap_cons, hp]
    | some v =>
      rw [hp] at hf
      simp only [] at hf
      by_cases hlt : st._default_proxy.length < 10
      · rw [if_pos hlt] at hf
        rw [ih _ (by rw [hf]; simp; omega), hf]
        simp [List.filterMap_cons, hp]
      · rw [if_neg hlt] at hf
        have h10 : st._default_proxy.length = 10 := by omega
        rw [ih _ (by rw [hf]; exact h), hf]
        simp [List.filterMap_cons, hp, List.take_left' h10]

theorem foldl_line_effect_no_proxy (ls : List (List Char)) (st : State) :
    (ls.foldl (fun st l => line_effect l st) st).no_proxy
      = (match (ls.filterMap spec_no_proxy_value).getLast? with
        | some v => some v
        | none => st.no_proxy) := by
  induction ls generalizing st with
  | nil => simp
  | cons l ls ih =>
    have hf := (line_effect_fields l st).2
    simp only [List.foldl_cons]
    rw [ih, hf]
    cases hn : spec_no_proxy_value l with
    | none => simp [List.filterMap_cons, hn]
    | some v =>
      simp only [List.filterMap_cons, hn]
      cases hr : ls.filterMap spec_no_proxy_value with
      | nil => simp
      | cons w ws =>
        cases hg : (w :: ws).getLast? with
        | none => exact absurd hg (by simp)
        | some x => rw [List.getLast?_cons_cons, hg]

/-! ## The loader as a whole -/

theorem expand_tilde_isSome (home : Option CStr) (path : CStr) :
    (expand_tilde home path).isSome = true := by
  unfold expand_tilde
  split
  · rfl
  · split
    · rfl
    · simp only []
      split <;> rfl

theorem read_config_file_system (env : Env) (st : State) :
    read_config_file env default_config_file st = read_config_stream (system_file env) st := by
  have he : expand_tilde env.HOME default_config_file = some default_config_file := by
    unfold expand_tilde
    rw [if_pos (by decide)]
  unfold read_config_file system_file
  simp only [he]
  cases env.fopen default_config_file with
  | none => simp [read_config_stream_nil]
  | some file => simp

theorem read_config_file_user (env : Env) (st : State) :
    read_config_file env user_config_file st = read_config_stream (user_file env) st := by
  obtain ⟨p, hp⟩ := Option.isSome_iff_exists.1 (expand_tilde_isSome env.HOME user_config_file)
  unfold read_config_file user_file
  simp only [hp]
  cases env.fopen p with
  | none => simp [read_config_stream_nil]
  | some file => simp

theorem init_config_eq (env : Env) :
    init_config env State.initial
      = read_config_stream (user_file env) (read_config_stream (system_file env)
          { State.initial with no_proxy := some default_no_proxy }) := by
  unfold init_config
  simp only [read_config_file_system, read_config_file_user]

theorem init_config_spec (env : Env) (hsys : short_text_file (system_file env))
    (huser : short_text_file (user_file env)) :
    (init_config env State.initial)._default_proxy
      = (spec_proxy_values (system_file env) (user_file env)).take 10
    ∧ (init_config env State.initial).no_proxy
      = some (spec_no_proxy (system_file env) (user_file env)) := by
  rw [init_config_eq, read_config_stream_lines _ _ hsys, read_config_stream_lines _ _ huser,
    ← List.foldl_append]
  constructor
  · rw [foldl_line_effect_proxy _ _ (by simp [State.initial])]
    simp [State.initial, spec_proxy_values]
  · rw [foldl_line_effect_no_proxy]
    simp only [List.filterMap_append, List.getLast?_append, spec_no_proxy, default_no_proxy]
    cases ((file_lines (user_file env)).filterMap spec_no_proxy_value).getLast? with
    | some v => simp
    | none =>
      cases ((file_lines (system_file env)).filterMap spec_no_proxy_value).getLast? <;> simp

theorem read_config_line_cap (buf : List Char) (st : State)
    (h : st._default_proxy.length ≤ 10) :
    (read_config_line buf st)._default_proxy.length ≤ 10 := by
  unfold read_config_line
  simp only [State._default_proxy_count]
  repeat' split
  all_goals first
    | exact h
    | (simp only [List.length_append, List.length_singleton]; omega)

theorem read_config_loop_cap (fuel : Nat) (s : List Char) (st : State)
    (h : st._default_proxy.length ≤ 10) :
    (read_config_loop fuel s st)._default_proxy.length ≤ 10 := by
  induction fuel generalizing s st with
  | zero => exact h
  | succ fuel ih =>
    unfold read_config_loop
    split
    · exact h
    · exact ih _ _ (read_config_line_cap _ _ h)

theorem init_config_cap (env : Env) :
    (init_config env State.initial)._default_proxy.length ≤ 10 := by
  rw [init_config_eq]
  exact read_config_loop_cap _ _ _ (read_config_loop_cap _ _ _ (by simp [State.initial]))

/-! ## Lines longer than the read buffer -/

theorem fgets_scan_full (l rest : List Char) (n : Nat) (hnl : '\n' ∉ l) (hlen : l.length = n) :
    fgets_scan n (l ++ rest) = (l, rest) := by
  induction l generalizing n with
  | nil => subst hlen; rfl
  | cons c l ih =>
    obtain ⟨m, rfl⟩ : ∃ m, n = m + 1 := ⟨l.length, by simpa using hlen.symm⟩
    have hc : c ≠ '\n' := fun e => hnl (e ▸ List.mem_cons_self _ _)
    have := ih m (fun h => hnl (List.mem_cons_of_mem _ h)) (by simpa using hlen)
    simp [fgets_scan, hc, this]

theorem read_config_line_comment (buf : List Char) (st : State) :
    read_config_line ('#' :: buf) st = st := by
  have h : (cstr ('#' :: buf)).head? = some '#' := by
    have hne : ¬ '#' = NUL := by decide
    simp [cstr, List.takeWhile_cons, hne]
  unfold read_config_line
  simp only [h, true_or, if_true]

theorem filler_length : filler.length = 1022 := List.length_replicate _ _

theorem filler_no_newline : '\n' ∉ filler := by
  intro h
  exact absurd (List.eq_of_mem_replicate h) (by decide)

theorem read_config_stream_long_comment (body : List Char) (st : State) :
    read_config_stream (long_comment body) st = read_config_stream (body ++ ['\n']) st := by
  have hg : fgets 1024 (long_comment body) = some ('#' :: filler, body ++ ['\n']) := by
    have hnl : '\n' ∉ '#' :: filler := by
      simp [filler_no_newline]
    have := fgets_scan_full ('#' :: filler) (body ++ ['\n']) 1023 hnl
      (by simp [filler_length])
    unfold fgets long_comment
    rw [if_neg (by simp)]
    simpa using this
  rw [read_config_stream_step _ _ _ st hg, read_config_line_comment]

theorem file_lines_long_comment (body : List Char) (hb : '\n' ∉ body) :
    file_lines (long_comment body) = ['#' :: (filler ++ body), []] := by
  have hnl : '\n' ∉ '#' :: (filler ++ body) := by
    simp [filler_no_newline, hb]
  have hsplit : long_comment body = ('#' :: (filler ++ body)) ++ '\n' :: [] := by
    simp [long_comment]
  rw [hsplit, file_lines_line _ [] hnl]
  rfl

theorem spec_values_comment (l : List Char) :
    spec_proxy_value ('#' :: l) = none ∧ spec_no_proxy_value ('#' :: l) = none := by
  constructor
  · unfold spec_proxy_value
    rw [if_neg]
    intro h
    have := congrArg List.head? h
    simp at this
  · unfold spec_no_proxy_value
    rw [if_neg]
    intro h
    have := congrArg List.head? h
    simp at this

/-- C9, as amended: after `init_config` the no_proxy value is never absent;
and when both configuration files are text whose lines are shorter than 1023
bytes, it is the value of the last well-formed `no_proxy=` line of the user
file if there is one, else of the last such line of the system file if there
is one, else the empty string (no other line changes it). -/
theorem C9_no_proxy_last_wins (env : Env) :
    (init_config env State.initial).no_proxy.isSome = true
    ∧ (short_text_file (system_file env) → short_text_file (user_file env) →
        (init_config env State.initial).no_proxy
          = some (spec_no_proxy (system_file env) (user_file env))) :=
  ⟨(init_config_frame env).2.2.2, fun hsys huser => (init_config_spec env hsys huser).2⟩

/-- C9 witness: a system file with a `proxy=` line, two `no_proxy=` lines and
a malformed one; the second well-formed value is kept. -/
theorem C9_no_proxy_last_wins_witness :
    (init_config (env_with_system_file
        "no_proxy=\"a\"\nproxy=\"p:1\"\nno_proxy=\"b\"\nno_proxy=\"c\n".toList)
      State.initial).no_proxy = some "b".toList :=
  ((C9_no_proxy_last_wins (env_with_system_file
      "no_proxy=\"a\"\nproxy=\"p:1\"\nno_proxy=\"b\"\nno_proxy=\"c\n".toList)).2
    (by decide) (by decide)).trans (by decide)

/-- C9 as stated fails: the only line of this system file is a comment of
more than 1023 bytes, so the files hold no `no_proxy=` line and the value in
the words of the claim is empty; the loader reads the tail of the comment as a
line of its own and sets no_proxy to `V`. -/
theorem C9_counterexample :
    spec_no_proxy (system_file (env_with_system_file (long_comment "no_proxy=\"V\"".toList)))
        (user_file (env_with_system_file (long_comment "no_proxy=\"V\"".toList))) = []
    ∧ (init_config (env_with_system_file (long_comment "no_proxy=\"V\"".toList))
        State.initial).no_proxy = some "V".toList := by
  have hs : system_file (env_with_system_file (long_comment "no_proxy=\"V\"".toList))
      = long_comment "no_proxy=\"V\"".toList := rfl
  have hu : user_file (env_with_system_file (long_comment "no_proxy=\"V\"".toList)) = [] := rfl
  constructor
  · rw [hs, hu]
    unfold spec_no_proxy
    rw [file_lines_long_comment _ (by decide)]
    simp [List.filterMap_cons, (spec_values_comment _).2, file_lines, spec_no_proxy_value]
  · rw [init_config_eq, hs, hu, read_config_stream_nil, read_config_stream_long_comment]
    decide

/-- C10, as amended: the loaded candidate list never holds more than 10
entries; when both configuration files are text whose lines are shorter than
1023 bytes, it is the first min(10, k) of the k well-formed proxy values in
read order (system file, then user file), so all of them when k is at most 10,
and later entries never displace or reorder earlier ones; and a well-formed
`no_proxy=` line takes effect in every state, also when the list is full. -/
theorem C10_candidate_cap (env : Env) :
    (init_config env State.initial)._default_proxy_count ≤ 10
    ∧ (short_text_file (system_file env) → short_text_file (user_file env) →
        (init_config env State.initial)._default_proxy
          = (spec_proxy_values (system_file env) (user_file env)).take
              (min 10 (spec_proxy_values (system_file env) (user_file env)).length)
        ∧ ((spec_proxy_values (system_file env) (user_file env)).length ≤ 10 →
            (init_config env State.initial)._default_proxy
              = spec_proxy_values (system_file env) (user_file env)))
    ∧ (∀ (l tail : List Char) (st : State) (v : CStr),
        l.length < 1023 → '\n' ∉ l → NUL ∉ l → (tail = [] ∨ tail.head? = some '\n') →
        spec_no_proxy_value l = some v →
        read_config_stream (l ++ tail) st
          = read_config_stream (tail.drop 1) { st with no_proxy := some v }) := by
  refine ⟨init_config_cap env, fun hsys huser => ?_, ?_⟩
  · have h := (init_config_spec env hsys huser).1
    refine ⟨?_, fun hk => ?_⟩
    · rw [h]
      rcases Nat.le_total (spec_proxy_values (system_file env) (user_file env)).length 10
        with hk | hk
      · rw [Nat.min_eq_right hk, List.take_of_length_le hk, List.take_length]
      · rw [Nat.min_eq_left hk]
    · rw [h, List.take_of_length_le hk]
  · intro l tail st v hlen hnl hnul ht hv
    rw [read_config_stream_line l tail st ⟨hlen, hnl, hnul⟩ ht]
    congr 1
    have hp : spec_proxy_value l = none := by
      cases hp : spec_proxy_value l with
      | none => rfl
      | some w => rw [spec_values_exclusive l w hp] at hv; exact absurd hv (by simp)
    simp [line_effect, hp, hv]

/-- C10 witness: of eleven `proxy=` lines the first ten are kept, in order. -/
theorem C10_candidate_cap_witness :
    (init_config (env_with_system_file eleven_proxies) State.initial)._default_proxy
      = ["p1:1".toList, "p2:1".toList, "p3:1".toList, "p4:1".toList, "p5:1".toList,
         "p6:1".toList, "p7:1".toList, "p8:1".toList, "p9:1".toList, "p10:1".toList] :=
  (((C10_candidate_cap (env_with_system_file eleven_proxies)).2.1
    (by decide) (by decide)).1).trans (by decide)

/-- C10 as stated fails: the only line of this system file is a comment of
more than 1023 bytes, so the files hold no well-formed proxy value (k = 0);
the loader reads the tail of the comment as a line of its own and loads the
candidate `V`. -/
theorem C10_counterexample :
    spec_proxy_values (system_file (env_with_system_file (long_comment "proxy=\"V\"".toList)))
        (user_file (env_with_system_file (long_comment "proxy=\"V\"".toList))) = []
    ∧ (init_config (env_with_system_file (long_comment "proxy=\"V\"".toList))
        State.initial)._default_proxy = ["V".toList] := by
  have hs : system_file (env_with_system_file (long_comment "proxy=\"V\"".toList))
      = long_comment "proxy=\"V\"".toList := rfl
  have hu : user_file (env_with_system_file (long_comment "proxy=\"V\"".toList)) = [] := rfl
  constructor
  · rw [hs, hu]
    unfold spec_proxy_values
    rw [file_lines_long_comment _ (by decide)]
    simp [List.filterMap_cons, (spec_values_comment _).1, file_lines, spec_proxy_value]
  · rw [init_config_eq, hs, hu, read_config_stream_nil, read_config_stream_long_comment]
    decide

/-! ## Option scan without options -/

theorem getopt_scan_nonoptions (posix : Bool) (optstring : List Char)
    (args skipped : List CStr) (h : ∀ a ∈ args, NONOPTION_P a = true) :
    getopt_scan posix optstring args skipped = GetoptRet.done (skipped.reverse ++ args) := by
  induction args generalizing skipped with
  | nil => simp [getopt_scan]
  | cons a rest ih =>
    have ha := h a (List.mem_cons_self _ _)
    have hne : a ≠ "--".toList := by
      intro e
      rw [e] at ha
      exact absurd ha (by decide)
    unfold getopt_scan
    rw [if_neg hne, if_pos ha]
    cases posix with
    | true => simp
    | false =>
      simp only [Bool.false_eq_true, if_false]
      rw [ih (a :: skipped) (fun b hb => h b (List.mem_cons_of_mem _ hb))]
      simp

/-- When no argument after the program name is an option element or `--`, the
first `getopt` call ends the scan and the operands are those arguments, in
order, for both scan orders. -/
theorem getopt_no_options (posix : Bool) (optstring : List Char) (prog : CStr)
    (args : List CStr) (h : ∀ a ∈ args, NONOPTION_P a = true) :
    getopt posix (prog :: args) optstring = GetoptRet.done args := by
  unfold getopt
  simpa using getopt_scan_nonoptions posix optstring args [] h

/-! ## Claims about the path resolver -/

/-- C12: `expand_tilde` as a function of the path and `HOME`: a path that does
not start with `~` is returned unchanged; with `HOME` unset every path is
returned unchanged; with `HOME` set, `~` gives `HOME`, and any other path
`~t` gives `HOME`, then `/`, then `t` without one leading `/` if it has one
(so `~/x` and `~x` both give `HOME/x`). -/
theorem C12_expand_tilde (home : CStr) (path t : CStr) :
    (path.head? ≠ some '~' → ∀ h : Option CStr, expand_tilde h path = some path)
    ∧ expand_tilde none path = some path
    ∧ expand_tilde (some home) "~".toList = some home
    ∧ (t ≠ [] → expand_tilde (some home) ('~' :: t)
        = some (home ++ "/".toList ++ (if t.head? = some '/' then t.drop 1 else t)))
    ∧ expand_tilde (some home) "~/x".toList = some (home ++ "/x".toList)
    ∧ expand_tilde (some home) "~x".toList = some (home ++ "/x".toList) := by
  refine ⟨fun h _ => ?_, ?_, ?_, fun ht => ?_, ?_, ?_⟩
  · simp [expand_tilde, h]
  · unfold expand_tilde
    split <;> rfl
  · simp [expand_tilde]
  · simp [expand_tilde, ht]
  · simp [expand_tilde]
  · simp [expand_tilde]

/-- C12 witness: `x/y` is returned unchanged and `~/.config` is expanded under
`/home/u`. -/
theorem C12_expand_tilde_witness :
    expand_tilde (some "/home/u".toList) "x/y".toList = some "x/y".toList
    ∧ expand_tilde (some "/home/u".toList) "~/.config".toList
        = some "/home/u/.config".toList :=
  ⟨(C12_expand_tilde "/home/u".toList "x/y".toList "/.config".toList).1 (by decide) _,
   ((C12_expand_tilde "/home/u".toList "x/y".toList "/.config".toList).2.2.2.1
      (by decide)).trans (by decide)⟩

/-- C13, as amended: for a path `~t` whose `t` starts with a character other
than `/`, `expand_tilde` returns the path unchanged when `HOME` is unset, and
returns `HOME`, then `/`, then `t` when `HOME` is set; no user name is looked
up. -/
theorem C13_tilde_name (t : CStr) (c : Char) (hc : t.head? = some c) (hs : c ≠ '/') :
    expand_tilde none ('~' :: t) = some ('~' :: t)
    ∧ ∀ home : CStr, expand_tilde (some home) ('~' :: t) = some (home ++ "/".toList ++ t) := by
  have ht : t ≠ [] := by
    intro e; rw [e] at hc; simp at hc
  have hh : ¬ t.head? = some '/' := by
    rw [hc]; intro e; exact hs (Option.some.inj e)
  refine ⟨by simp [expand_tilde], fun home => ?_⟩
  simp [expand_tilde, ht, hh]

/-- C13 witness: `~user/file` with `HOME` set to `/home/u`. -/
theorem C13_tilde_name_witness :
    expand_tilde none "~user/file".toList = some "~user/file".toList
    ∧ ∀ home : CStr, expand_tilde (some home) "~user/file".toList
        = some (home ++ "/".toList ++ "user/file".toList) :=
  C13_tilde_name "user/file".toList 'u' rfl (by decide)

/-- C13 as stated fails: with `HOME` set to `/home/u`, `~x` is not returned
unchanged but becomes `/home/u/x`. -/
theorem C13_counterexample :
    expand_tilde (some "/home/u".toList) "~x".toList = some "/home/u/x".toList
    ∧ expand_tilde (some "/home/u".toList) "~x".toList ≠ some "~x".toList := by
  decide

/-! ## The option arms of the driver -/

theorem main_opt_u (env : Env) (argv : List CStr)
    (h : getopt env.posixly_correct argv "uvh".toList = GetoptRet.opt 'u') :
    main env argv = unset_proxy env (init_config env State.initial) := by
  simp only [main, h]
  simp

theorem main_opt_v (env : Env) (argv : List CStr)
    (h : getopt env.posixly_correct argv "uvh".toList = GetoptRet.opt 'v') :
    main env argv = version (init_config env State.initial) := by
  simp only [main, h]
  simp

theorem main_opt_h (env : Env) (argv : List CStr)
    (h : getopt env.posixly_correct argv "uvh".toList = GetoptRet.opt 'h') :
    main env argv = help (init_config env State.initial) := by
  simp only [main, h]
  simp

theorem main_opt_unknown (env : Env) (argv : List CStr) (c : Char)
    (hu : c ≠ 'u') (hv : c ≠ 'v') (hh : c ≠ 'h')
    (h : getopt env.posixly_correct argv "uvh".toList = GetoptRet.opt c) :
    main env argv = (1, (help (cleanup (init_config env State.initial))).2) := by
  simp only [main, h]
  simp [hu, hv, hh, help]

theorem version_stdout (st : State) :
    (version st).1 = 0 ∧ (version st).2.stdout = st.stdout ++ version_line
    ∧ (version st).2.probes = st.probes ∧ (version st).2.tcp = st.tcp := by
  simp [version, State.print, version_line, program, program_version]

theorem help_stdout (st : State) :
    (help st).1 = 0 ∧ (help st).2.stdout = st.stdout ++ usage_text
    ∧ (help st).2.probes = st.probes ∧ (help st).2.tcp = st.tcp := by
  simp [help, State.print, usage_text, program, program_version]

theorem unset_proxy_frame (env : Env) (st : State) :
    (unset_proxy env st).2.probes = st.probes ∧ (unset_proxy env st).2.tcp = st.tcp := by
  cases h : env.isatty_stdout
  · rw [unset_proxy_notty env st h]; simp [State.print]
  · rw [unset_proxy_tty env st h]; simp [State.eprint]

theorem getopt_long_option (posix : Bool) (prog a : CStr) (rest : List CStr) :
    getopt posix (prog :: ('-' :: '-' :: a) :: rest) "uvh".toList
      = if a = [] then GetoptRet.done rest else GetoptRet.opt '?' := by
  unfold getopt
  simp only [List.drop_one, List.tail_cons]
  unfold getopt_scan
  by_cases ha : a = []
  · subst ha
    rw [if_pos (by decide), if_pos rfl]
    simp
  · have hne : ¬ ('-' :: '-' :: a) = "--".toList := by
      intro e
      apply ha
      simpa using e
    rw [if_neg hne, if_neg ha]
    simp [NONOPTION_P]

/-! ## Claims about the option arms -/

/-- C15: when the first option processed is `-v`, `main` prints exactly the
line `setproxy, version 0.1.0` and exits 0; when it is `-h`, `main` prints the
usage text and exits 0; when it is an unrecognised option character, `main`
prints the same usage text and exits 1. -/
theorem C15_option_exit_codes (env : Env) (argv : List CStr) :
    (getopt env.posixly_correct argv "uvh".toList = GetoptRet.opt 'v' →
      (main env argv).2.stdout = "setproxy, version 0.1.0\n".toList ∧ (main env argv).1 = 0)
    ∧ (getopt env.posixly_correct argv "uvh".toList = GetoptRet.opt 'h' →
      (main env argv).2.stdout = usage_text ∧ (main env argv).1 = 0)
    ∧ (∀ c : Char, c ≠ 'u' → c ≠ 'v' → c ≠ 'h' →
      getopt env.posixly_correct argv "uvh".toList = GetoptRet.opt c →
      (main env argv).2.stdout = usage_text ∧ (main env argv).1 = 1) := by
  have hi := (init_config_frame env).1
  refine ⟨fun h => ?_, fun h => ?_, fun c hu hv hh h => ?_⟩
  · rw [main_opt_v env argv h]
    exact ⟨by rw [(version_stdout _).2.1, hi]; rfl, (version_stdout _).1⟩
  · rw [main_opt_h env argv h]
    exact ⟨by rw [(help_stdout _).2.1, hi]; rfl, (help_stdout _).1⟩
  · rw [main_opt_unknown env argv c hu hv hh h]
    refine ⟨?_, rfl⟩
    show (help (cleanup (init_config env State.initial))).2.stdout = usage_text
    rw [(help_stdout _).2.1, (cleanup_frame _).1, hi]; rfl

/-- C15 witness: `setproxy -v`, `setproxy -h` and `setproxy -x` on a terminal. -/
theorem C15_option_exit_codes_witness :
    ((main (sample_env true) ["setproxy".toList, "-v".toList]).2.stdout
        = "setproxy, version 0.1.0\n".toList
      ∧ (main (sample_env true) ["setproxy".toList, "-v".toList]).1 = 0)
    ∧ ((main (sample_env true) ["setproxy".toList, "-h".toList]).2.stdout = usage_text
      ∧ (main (sample_env true) ["setproxy".toList, "-h".toList]).1 = 0)
    ∧ ((main (sample_env true) ["setproxy".toList, "-x".toList]).2.stdout = usage_text
      ∧ (main (sample_env true) ["setproxy".toList, "-x".toList]).1 = 1) :=
  ⟨(C15_option_exit_codes (sample_env true) ["setproxy".toList, "-v".toList]).1 (by decide),
   (C15_option_exit_codes (sample_env true) ["setproxy".toList, "-h".toList]).2.1 (by decide),
   (C15_option_exit_codes (sample_env true) ["setproxy".toList, "-x".toList]).2.2 '?'
     (by decide) (by decide) (by decide) (by decide)⟩

theorem main_no_probe (env : Env) (argv : List CStr)
    (h : env.isatty_stdout = true
      ∨ ∃ c, getopt env.posixly_correct argv "uvh".toList = GetoptRet.opt c) :
    (main env argv).2.probes = [] ∧ (main env argv).2.tcp = [] := by
  have hi := init_config_frame env
  cases hg : getopt env.posixly_correct argv "uvh".toList with
  | opt c =>
    by_cases hu : c = 'u'
    · subst hu
      rw [main_opt_u env argv hg, (unset_proxy_frame _ _).1, (unset_proxy_frame _ _).2]
      exact ⟨hi.2.1, hi.2.2.1⟩
    · by_cases hv : c = 'v'
      · subst hv
        rw [main_opt_v env argv hg, (version_stdout _).2.2.1, (version_stdout _).2.2.2]
        exact ⟨hi.2.1, hi.2.2.1⟩
      · by_cases hh : c = 'h'
        · subst hh
          rw [main_opt_h env argv hg, (help_stdout _).2.2.1, (help_stdout _).2.2.2]
          exact ⟨hi.2.1, hi.2.2.1⟩
        · rw [main_opt_unknown env argv c hu hv hh hg]
          show (help (cleanup (init_config env State.initial))).2.probes = []
            ∧ (help (cleanup (init_config env State.initial))).2.tcp = []
          rw [(help_stdout _).2.2.1, (help_stdout _).2.2.2, (cleanup_frame _).2.1,
            (cleanup_frame _).2.2.1]
          exact ⟨hi.2.1, hi.2.2.1⟩
  | done operands =>
    have htty : env.isatty_stdout = true := by
      rcases h with h | ⟨c, hc⟩
      · exact h
      · rw [hg] at hc; exact absurd hc (by simp)
    simp only [main, hg, htty]
    simp [cleanup, State.eprint, hi.2.1, hi.2.2.1]

/-- C16: when standard output is a terminal, or the first `getopt` call
returns an option (`-u`, `-v`, `-h` or an unknown one), `main` never calls
`check_proxy_connectivity` nor `check_tcp_connectivity`, whatever the
operands and the configuration candidates. -/
theorem C16_no_probe_outside_select (env : Env) (argv : List CStr)
    (h : env.isatty_stdout = true
      ∨ ∃ c, getopt env.posixly_correct argv "uvh".toList = GetoptRet.opt c) :
    (main env argv).2.probes = [] ∧ (main env argv).2.tcp = [] :=
  main_no_probe env argv h

/-- C16 witness: `setproxy a:3128 -u` with a candidate that would answer. -/
theorem C16_no_probe_outside_select_witness :
    (main (sample_env false) ["setproxy".toList, "a:3128".toList, "-u".toList]).2.probes = []
    ∧ (main (sample_env false) ["setproxy".toList, "a:3128".toList, "-u".toList]).2.tcp = [] :=
  C16_no_probe_outside_select (sample_env false)
    ["setproxy".toList, "a:3128".toList, "-u".toList] (Or.inr ⟨'u', by decide⟩)

theorem getopt_short_option (posix : Bool) (prog : CStr) (c : Char) (rest : List CStr)
    (hc : c = 'u' ∨ c = 'v' ∨ c = 'h') :
    getopt posix (prog :: ['-', c] :: rest) "uvh".toList = GetoptRet.opt c := by
  unfold getopt
  simp only [List.drop_one, List.tail_cons]
  unfold getopt_scan
  rcases hc with rfl | rfl | rfl <;> simp [NONOPTION_P]

/-- C14 fails on the code: `main` scans with `getopt` and the option string
`uvh`, which knows no long options.  For every environment `--unset`,
`--version` and `--help` are answered like an unknown option, with the usage
text on standard output and exit code 1, while `-u` gives the unset block (or
the terminal refusal), `-v` the version line and `-h` exit code 0. -/
theorem C14_long_options_unknown (env : Env) (prog : CStr) :
    ((main env [prog, "--unset".toList]).2.stdout = usage_text
      ∧ (main env [prog, "--unset".toList]).1 = 1)
    ∧ ((main env [prog, "--version".toList]).2.stdout = usage_text
      ∧ (main env [prog, "--version".toList]).1 = 1)
    ∧ ((main env [prog, "--help".toList]).2.stdout = usage_text
      ∧ (main env [prog, "--help".toList]).1 = 1)
    ∧ ((main env [prog, "-u".toList]).2.stdout
        = (if env.isatty_stdout then [] else unset_block)
      ∧ (main env [prog, "-u".toList]).1 = (if env.isatty_stdout then 1 else 0))
    ∧ ((main env [prog, "-v".toList]).2.stdout = version_line
      ∧ (main env [prog, "-v".toList]).1 = 0)
    ∧ ((main env [prog, "-h".toList]).2.stdout = usage_text
      ∧ (main env [prog, "-h".toList]).1 = 0) := by
  have hi := (init_config_frame env).1
  have hlong : ∀ a : CStr, a ≠ [] →
      (main env [prog, '-' :: '-' :: a]).2.stdout = usage_text
      ∧ (main env [prog, '-' :: '-' :: a]).1 = 1 := by
    intro a ha
    have hg : getopt env.posixly_correct [prog, '-' :: '-' :: a] "uvh".toList
        = GetoptRet.opt '?' :=
      (getopt_long_option env.posixly_correct prog a []).trans (if_neg ha)
    rw [main_opt_unknown env _ '?' (by decide) (by decide) (by decide) hg]
    refine ⟨?_, rfl⟩
    show (help (cleanup (init_config env State.initial))).2.stdout = usage_text
    rw [(help_stdout _).2.1, (cleanup_frame _).1, hi]; rfl
  refine ⟨hlong "unset".toList (by decide), hlong "version".toList (by decide),
    hlong "help".toList (by decide), ?_, ?_, ?_⟩
  · have hg : getopt env.posixly_correct [prog, "-u".toList] "uvh".toList = GetoptRet.opt 'u' :=
      getopt_short_option env.posixly_correct prog 'u' [] (Or.inl rfl)
    rw [main_opt_u env _ hg]
    cases h : env.isatty_stdout
    · rw [unset_proxy_notty env _ h]
      simp [State.print, hi]
    · rw [unset_proxy_tty env _ h]
      simp [State.eprint, hi]
  · have hg : getopt env.posixly_correct [prog, "-v".toList] "uvh".toList = GetoptRet.opt 'v' :=
      getopt_short_option env.posixly_correct prog 'v' [] (Or.inr (Or.inl rfl))
    rw [main_opt_v env _ hg]
    exact ⟨by rw [(version_stdout _).2.1, hi]; rfl, (version_stdout _).1⟩
  · have hg : getopt env.posixly_correct [prog, "-h".toList] "uvh".toList = GetoptRet.opt 'h' :=
      getopt_short_option env.posixly_correct prog 'h' [] (Or.inr (Or.inr rfl))
    rw [main_opt_h env _ hg]
    exact ⟨by rw [(help_stdout _).2.1, hi]; rfl, (help_stdout _).1⟩

/-! ## Claim about lines longer than the read buffer -/

/-- C17: a run of 1023 bytes without a newline at the head of a stream is
stored by `fgets` as one buffer, and the loop of `read_config_file` handles it
as a record of its own before going on with what follows, so a physical line
longer than 1023 bytes is handled chunk by chunk.  In particular the file
whose single line is `#`, 1022 filler bytes and then `proxy="V"` puts `V` in
the candidate list: a line that begins with `#` is not always without
effect. -/
theorem C17_long_line_chunks (chunk rest : List Char) (st : State)
    (hlen : chunk.length = 1023) (hnl : '\n' ∉ chunk) :
    fgets 1024 (chunk ++ rest) = some (chunk, rest)
    ∧ read_config_stream (chunk ++ rest) st
        = read_config_stream rest (read_config_line chunk st)
    ∧ (long_comment "proxy=\"V\"".toList).head? = some '#'
    ∧ file_lines (long_comment "proxy=\"V\"".toList)
        = ['#' :: (filler ++ "proxy=\"V\"".toList), []]
    ∧ (read_config_file (env_with_system_file (long_comment "proxy=\"V\"".toList))
        default_config_file State.initial)._default_proxy = ["V".toList] := by
  have hg : fgets 1024 (chunk ++ rest) = some (chunk, rest) := by
    have hne : chunk ++ rest ≠ [] := by
      intro e
      have hc : chunk = [] := (List.append_eq_nil.1 e).1
      rw [hc] at hlen
      exact absurd hlen (by decide)
    unfold fgets
    rw [if_neg hne, fgets_scan_full chunk rest 1023 hnl hlen]
  refine ⟨hg, read_config_stream_step _ _ _ st hg, rfl,
    file_lines_long_comment _ (by decide), ?_⟩
  have hs : system_file (env_with_system_file (long_comment "proxy=\"V\"".toList))
      = long_comment "proxy=\"V\"".toList := rfl
  rw [read_config_file_system, hs, read_config_stream_long_comment]
  decide

/-- C17 witness: the chunk `#` with 1022 filler bytes, followed by the record
`proxy="V"`. -/
theorem C17_long_line_chunks_witness :
    fgets 1024 (('#' :: filler) ++ "proxy=\"V\"\n".toList)
      = some ('#' :: filler, "proxy=\"V\"\n".toList) :=
  (C17_long_line_chunks ('#' :: filler) "proxy=\"V\"\n".toList State.initial
    (by simp [filler_length]) (by simp [filler_no_newline])).1

/-! ## Order of the candidates -/

theorem read_config_line_proxy_effect (buf : List Char) :
    ∃ o : Option CStr, ∀ st : State,
      (read_config_line buf st)._default_proxy
        = (match o with
          | some v => if st._default_proxy.length < 10 then st._default_proxy ++ [v]
                      else st._default_proxy
          | none => st._default_proxy) := by
  by_cases h1 : (cstr buf).head? = some '#' ∨ (cstr buf).head? = some '\n' ∨ cstr buf = []
  · refine ⟨none, fun st => ?_⟩
    unfold read_config_line
    simp only [if_pos h1]
  · by_cases h2 : strncmp_eq (if (cstr buf).getLast? = some '\n' then (cstr buf).dropLast
        else cstr buf) "proxy=".toList 6 = true
    · cases hq : quoted ((if (cstr buf).getLast? = some '\n' then (cstr buf).dropLast
          else cstr buf).drop 6) with
      | none =>
        refine ⟨none, fun st => ?_⟩
        unfold read_config_line
        simp only [if_neg h1, if_pos h2, hq]
      | some v =>
        refine ⟨some v, fun st => ?_⟩
        unfold read_config_line
        simp only [if_neg h1, if_pos h2, hq, State._default_proxy_count]
        split <;> rfl
    · refine ⟨none, fun st => ?_⟩
      unfold read_config_line
      simp only [if_neg h1, if_neg h2]
      repeat' split
      all_goals rfl

theorem read_config_line_shift (buf : List Char) (st st' : State) (p : List CStr)
    (h : st._default_proxy = (p ++ st'._default_proxy).take 10) :
    (read_config_line buf st)._default_proxy
      = (p ++ (read_config_line buf st')._default_proxy).take 10 := by
  obtain ⟨o, ho⟩ := read_config_line_proxy_effect buf
  rw [ho st, ho st']
  cases o with
  | none => exact h
  | some v =>
    simp only []
    have hlen : st._default_proxy.length = min 10 (p ++ st'._default_proxy).length := by
      rw [h, List.length_take]
    have happ : (p ++ st'._default_proxy).length = p.length + st'._default_proxy.length :=
      List.length_append _ _
    by_cases ha : st'._default_proxy.length < 10
    · rw [if_pos ha]
      by_cases hL : (p ++ st'._default_proxy).length < 10
      · have h1 : st._default_proxy = p ++ st'._default_proxy := by
          rw [h, List.take_of_length_le (by omega)]
        rw [if_pos (by rw [h1]; exact hL), h1, List.take_of_length_le]
        · simp
        · simp only [List.length_append, List.length_singleton] at hL ⊢
          omega
      · have ht : (p ++ (st'._default_proxy ++ [v])).take 10
            = (p ++ st'._default_proxy).take 10 := by
          rw [← List.append_assoc, List.take_append_of_le_length (by omega)]
        rw [if_neg (by omega), h, ht]
    · rw [if_neg ha]
      have hL : 10 ≤ (p ++ st'._default_proxy).length := by
        simp only [List.length_append]; omega
      rw [if_neg (by omega), h]

theorem read_config_loop_shift (fuel : Nat) (s : List Char) (st st' : State) (p : List CStr)
    (h : st._default_proxy = (p ++ st'._default_proxy).take 10) :
    (read_config_loop fuel s st)._default_proxy
      = (p ++ (read_config_loop fuel s st')._default_proxy).take 10 := by
  induction fuel generalizing s st st' with
  | zero => exact h
  | succ fuel ih =>
    unfold read_config_loop
    cases fgets 1024 s with
    | none => exact h
    | some r => exact ih _ _ _ (read_config_line_shift _ _ _ _ h)

theorem loaded_candidates_cap (content : List Char) :
    (loaded_candidates content).length ≤ 10 :=
  read_config_loop_cap _ _ _ (by simp [State.initial])

theorem init_config_order (env : Env) :
    (init_config env State.initial)._default_proxy
      = (loaded_candidates (system_file env) ++ loaded_candidates (user_file env)).take 10 := by
  have h1 : (read_config_stream (system_file env)
      { State.initial with no_proxy := some default_no_proxy })._default_proxy
      = loaded_candidates (system_file env) := by
    have := read_config_loop_shift (system_file env).length (system_file env)
      { State.initial with no_proxy := some default_no_proxy } State.initial [] rfl
    rw [List.nil_append, List.take_of_length_le
      (read_config_loop_cap _ _ _ (by simp [State.initial]))] at this
    exact this
  rw [init_config_eq]
  have h2 := read_config_loop_shift (user_file env).length (user_file env)
    (read_config_stream (system_file env)
      { State.initial with no_proxy := some default_no_proxy }) State.initial
    (loaded_candidates (system_file env))
    (by
      rw [h1]
      simp [State.initial, List.take_of_length_le (loaded_candidates_cap _)])
  exact h2

theorem loaded_candidates_spec (content : List Char) (h : short_text_file content) :
    loaded_candidates content = ((file_lines content).filterMap spec_proxy_value).take 10 := by
  unfold loaded_candidates
  rw [read_config_stream_lines _ _ h, foldl_line_effect_proxy _ _ (by simp [State.initial])]
  simp [State.initial]

theorem try_each_probes_before (env : Env) (cs : List CStr) (st : State) :
    ∃ rest, (try_each env cs st).2.probes ++ rest = st.probes ++ cs := by
  induction cs generalizing st with
  | nil => exact ⟨[], by simp [try_each]⟩
  | cons c cs ih =>
    have hf := (check_proxy_connectivity_frame env c st).2.2.2
    cases h : probe_ok env c
    · obtain ⟨rest, hr⟩ := ih (check_proxy_connectivity env c st).2
      refine ⟨rest, ?_⟩
      simp only [try_each, set_proxy_fail env c st h]
      rw [if_neg (by decide), hr, hf]
      simp
    · refine ⟨cs, ?_⟩
      simp [try_each, set_proxy_ok env c st h, State.print, hf]

/-- C11, as amended: the configuration candidates are the endpoints read from
the system file, in file order, followed by those read from the user file, in
file order, cut to the first 10; the candidates that a run offers to the
prober are, in order, an initial part of the operands followed by these
configuration candidates, and all of them when every probe fails (no option,
standard output not a terminal).  For a text file with lines shorter than 1023
bytes the endpoints read are the values of its well-formed `proxy=` lines. -/
theorem C11_candidate_order (env : Env) (argv : List CStr) :
    (init_config env State.initial)._default_proxy
      = (loaded_candidates (system_file env) ++ loaded_candidates (user_file env)).take 10
    ∧ (∃ rest, (main env argv).2.probes ++ rest
        = getopt_operands (getopt env.posixly_correct argv "uvh".toList)
          ++ (loaded_candidates (system_file env)
              ++ loaded_candidates (user_file env)).take 10)
    ∧ (∀ operands, env.isatty_stdout = false →
        getopt env.posixly_correct argv "uvh".toList = GetoptRet.done operands →
        (∀ c ∈ operands ++ (loaded_candidates (system_file env)
              ++ loaded_candidates (user_file env)).take 10, probe_ok env c = false) →
        (main env argv).2.probes
          = operands ++ (loaded_candidates (system_file env)
              ++ loaded_candidates (user_file env)).take 10)
    ∧ (∀ content, short_text_file content →
        loaded_candidates content
          = ((file_lines content).filterMap spec_proxy_value).take 10) := by
  have ho := init_config_order env
  have hi := init_config_frame env
  refine ⟨ho, ?_, fun operands htty hopt hall => ?_, loaded_candidates_spec⟩
  · by_cases hsel : env.isatty_stdout = true
        ∨ ∃ c, getopt env.posixly_correct argv "uvh".toList = GetoptRet.opt c
    · exact ⟨_, by rw [(main_no_probe env argv hsel).1, List.nil_append]⟩
    · have htty : env.isatty_stdout = false := by
        cases h : env.isatty_stdout
        · rfl
        · exact absurd (Or.inl h) hsel
      cases hg : getopt env.posixly_correct argv "uvh".toList with
      | opt c => exact absurd (Or.inr ⟨c, hg⟩) hsel
      | done operands =>
        obtain ⟨rest, hr⟩ := try_each_probes_before env
          (operands ++ (init_config env State.initial)._default_proxy)
          (init_config env State.initial)
        refine ⟨rest, ?_⟩
        rw [main_select env argv operands htty hg, (cleanup_frame _).2.1, hr, hi.2.1, ho]
        rfl
  · rw [← ho] at hall ⊢
    have ht := try_each_all_fail env _ (init_config env State.initial) hall
    rw [main_select env argv operands htty hopt, (cleanup_frame _).2.1, ht.2.2.2, hi.2.1]
    rfl

/-- C11 witness: one operand, a system file and a user file with one `proxy=`
line each, every probe refused: the operand is probed first, then the
system-file endpoint, then the user-file endpoint. -/
theorem C11_candidate_order_witness :
    (main (env_with_files "proxy=\"s:1\"\n".toList "proxy=\"u:1\"\n".toList)
        ["setproxy".toList, "a:1".toList]).2.probes
      = ["a:1".toList, "s:1".toList, "u:1".toList] :=
  ((C11_candidate_order (env_with_files "proxy=\"s:1\"\n".toList "proxy=\"u:1\"\n".toList)
      ["setproxy".toList, "a:1".toList]).2.2.1 ["a:1".toList] rfl (by decide)
    (by decide)).trans (by decide)

/-- C11 as stated fails: with one `proxy=` line in each file and every probe
refused, the system-file endpoint is probed before the user-file endpoint. -/
theorem C11_counterexample :
    system_file (env_with_files "proxy=\"s:1\"\n".toList "proxy=\"u:1\"\n".toList)
        = "proxy=\"s:1\"\n".toList
    ∧ user_file (env_with_files "proxy=\"s:1\"\n".toList "proxy=\"u:1\"\n".toList)
        = "proxy=\"u:1\"\n".toList
    ∧ (main (env_with_files "proxy=\"s:1\"\n".toList "proxy=\"u:1\"\n".toList)
        ["setproxy".toList]).2.probes = ["s:1".toList, "u:1".toList]
    ∧ (main (env_with_files "proxy=\"s:1\"\n".toList "proxy=\"u:1\"\n".toList)
        ["setproxy".toList]).2.probes ≠ ["u:1".toList, "s:1".toList] := by
  decide

end Setproxy
